import Mathlib

/-!
Verification development for the configuration engine of tidy-html5
(`src/config.c`): option registry, value store, tokenizer, value parsers,
consistency pass (`AdjustConfig`), and the snapshot manager.

The embedding follows the C source closely.  Machine words are modelled as
`Nat`.  A string-valued option slot is `Option String`: `none` models the
NULL pointer, which is also the shared string default (`pdflt` is NULL for
every row of `option_defs`), and `some s` models an owned allocation with
content `s`.  Owned allocations are abstracted to their content; where the
C code reads the raw machine word of a slot (through the union), an owned
pointer is abstracted to the nonzero word 1 (a live allocation is never at
address 0, and its numeric address is never meaningfully compared with the
small integers appearing in the table on kind-correct stores).

Code from other translation units of the repository (lexer.c, message.c,
tags.c, streamio.c, tmbstr.c) is not part of the given source; those
helpers are modelled from the spec and marked `Modelled from the spec:` in
their doc comments.
-/

namespace TidyHtml5

/-- Modelled from the spec: whitespace classification `TY_(IsWhite)`
(lexer.c) — space, tab, carriage return, line feed. -/
def IsWhite (c : Char) : Bool := c = ' ' || c = '\t' || c = '\r' || c = '\n'

/-- Modelled from the spec: newline classification `TY_(IsNewline)` (lexer.c). -/
def IsNewline (c : Char) : Bool := c = '\r' || c = '\n'

/-- Modelled from the spec: decimal digit test `TY_(IsDigit)` (lexer.c). -/
def IsDigit (c : Char) : Bool := '0' ≤ c && c ≤ '9'

/-- Modelled from the spec: ASCII lower-casing `TY_(ToLower)` (lexer.c). -/
def ToLower (c : Char) : Char :=
  if 'A' ≤ c && c ≤ 'Z' then Char.ofNat (c.toNat + 32) else c

/-- Modelled from the spec: `TY_(tmbstrcasecmp)(a, b) == 0` (tmbstr.c),
ASCII case-insensitive string equality. -/
def strCaseEq (a b : String) : Bool := a.data.map ToLower == b.data.map ToLower

/-- `TidyOptionValue`: the tagged union of an integer word and a
(possibly NULL / default-aliasing) string pointer. -/
inductive TidyOptionValue where
  | intv (v : Nat)
  | strv (p : Option String)
deriving DecidableEq

/-- The raw machine word stored in a value slot, as read through the `.v`
member of the union: an integer is its own word, the NULL pointer is 0, and
an owned allocation is abstracted to the nonzero word 1. -/
def wordOf : TidyOptionValue → Nat
  | .intv v => v
  | .strv none => 0
  | .strv (some _) => 1

/-- Option value kinds (`TidyOptionType`). -/
inductive TidyOptionType where
  | TidyInteger
  | TidyBoolean
  | TidyString
deriving DecidableEq

/-- Which parsing routine a descriptor references (the `parser` field of
`TidyOptionImpl`; `PNone` is the NULL parser marking a read-only option). -/
inductive ParserKind where
  | PNone
  | PInt
  | PString
  | PCSS1
  | PTagNames
  | PCharEnc
  | PDocType
  | PTabs
  | PPick
deriving DecidableEq

/-- A pick list: ordered choices, each with a canonical label and its
accepted input spellings.  The `value` field of the C `PickListItem` is
documentation only (unused by the code) and is omitted. -/
abbrev PickListItems := List (String × List String)

def boolPicks : PickListItems :=
  [ ("no",  ["0", "n", "f", "no", "false"]),
    ("yes", ["1", "y", "t", "yes", "true"]) ]

def autoBoolPicks : PickListItems :=
  [ ("no",   ["0", "n", "f", "no", "false"]),
    ("yes",  ["1", "y", "t", "yes", "true"]),
    ("auto", ["auto"]) ]

def repeatAttrPicks : PickListItems :=
  [ ("keep-first", ["keep-first"]),
    ("keep-last",  ["keep-last"]) ]

def accessPicks : PickListItems :=
  [ ("0 (Tidy Classic)",      ["0", "0 (Tidy Classic)"]),
    ("1 (Priority 1 Checks)", ["1", "1 (Priority 1 Checks)"]),
    ("2 (Priority 2 Checks)", ["2", "2 (Priority 2 Checks)"]),
    ("3 (Priority 3 Checks)", ["3", "3 (Priority 3 Checks)"]) ]

def charEncPicks : PickListItems :=
  [ ("raw",      ["raw"]),
    ("ascii",    ["ascii"]),
    ("latin0",   ["latin0"]),
    ("latin1",   ["latin1"]),
    ("utf8",     ["utf8"]),
    ("iso2022",  ["iso2022"]),
    ("mac",      ["mac"]),
    ("win1252",  ["win1252"]),
    ("ibm858",   ["ibm858"]),
    ("utf16le",  ["utf16le"]),
    ("utf16be",  ["utf16be"]),
    ("utf16",    ["utf16"]),
    ("big5",     ["big5"]),
    ("shiftjis", ["shiftjis"]) ]

def newlinePicks : PickListItems :=
  [ ("LF", ["lf"]), ("CRLF", ["crlf"]), ("CR", ["cr"]) ]

def doctypePicks : PickListItems :=
  [ ("html5",        ["html5"]),
    ("omit",         ["omit"]),
    ("auto",         ["auto"]),
    ("strict",       ["strict"]),
    ("transitional", ["loose", "transitional"]),
    ("user",         ["user"]) ]

def sorterPicks : PickListItems :=
  [ ("none", ["none"]), ("alpha", ["alpha"]) ]

def customTagsPicks : PickListItems :=
  [ ("no",         ["no", "n"]),
    ("blocklevel", ["blocklevel"]),
    ("empty",      ["empty"]),
    ("inline",     ["inline", "y", "yes"]),
    ("pre",        ["pre"]) ]

def attributeCasePicks : PickListItems :=
  [ ("no",       ["0", "n", "f", "no", "false"]),
    ("yes",      ["1", "y", "t", "yes", "true"]),
    ("preserve", ["preserve"]) ]

/-- One row of the option registry (`TidyOptionImpl`).  The category tag is
documentation-only grouping and is omitted; the string default `pdflt` is
NULL for every row of the table and is therefore implicit. -/
structure TidyOptionImpl where
  id : Nat
  name : String
  otype : TidyOptionType
  dflt : Nat
  parser : ParserKind
  pickList : Option PickListItems
deriving DecidableEq

/-- Number of options, `N_TIDY_OPTIONS` (index of the sentinel row). -/
def N_TIDY_OPTIONS : Nat := 99

/- Option ids (`TidyOptionId`), in enum = table order. -/
def TidyUnknownOption : Nat := 0
def TidyAccessibilityCheckLevel : Nat := 1
def TidyAltText : Nat := 2
def TidyBlockTags : Nat := 5
def TidyCharEncoding : Nat := 8
def TidyCustomTags : Nat := 11
def TidyDoctype : Nat := 13
def TidyDoctypeMode : Nat := 14
def TidyEmptyTags : Nat := 21
def TidyEncloseBlockText : Nat := 22
def TidyEncloseBodyText : Nat := 23
def TidyInCharEncoding : Nat := 34
def TidyIndentContent : Nat := 37
def TidyIndentSpaces : Nat := 38
def TidyInlineTags : Nat := 39
def TidyOmitOptionalTags : Nat := 56
def TidyOutCharEncoding : Nat := 57
def TidyOutputBOM : Nat := 59
def TidyPPrintTabs : Nat := 60
def TidyPreTags : Nat := 62
def TidyQuoteAmpersand : Nat := 65
def TidyTabSize : Nat := 78
def TidyUpperCaseAttrs : Nat := 79
def TidyUpperCaseTags : Nat := 80
def TidyUseCustomTags : Nat := 81
def TidyWord2000 : Nat := 84
def TidyWrapLen : Nat := 88
def TidyXhtmlOut : Nat := 93
def TidyXmlDecl : Nat := 94
def TidyXmlOut : Nat := 95
def TidyXmlPIs : Nat := 96
def TidyXmlTags : Nat := 98

/- Character-encoding ids (streamio.h enum order; modelled constants —
the header is outside the given source). -/
def RAW : Nat := 0
def ASCII : Nat := 1
def LATIN0 : Nat := 2
def LATIN1 : Nat := 3
def UTF8 : Nat := 4
def ISO2022 : Nat := 5
def MACROMAN : Nat := 6
def WIN1252 : Nat := 7
def IBM858 : Nat := 8
def UTF16LE : Nat := 9
def UTF16BE : Nat := 10
def UTF16 : Nat := 11
def BIG5 : Nat := 12
def SHIFTJIS : Nat := 13

/- Tag-category bit flags (`UserTagType`, tags.h; modelled constants). -/
def tagtype_null : Nat := 0
def tagtype_empty : Nat := 1
def tagtype_inline : Nat := 2
def tagtype_block : Nat := 4
def tagtype_pre : Nat := 8

/-- Doctype mode `TidyDoctypeUser` = index of "user" in `doctypePicks`. -/
def TidyDoctypeUser : Nat := 5

/-- `option_defs`: the option registry, in `TidyOptionId` order (index =
id).  All build-configuration conditionals of the source are taken in their
default (enabled) state; `newline`'s default `DEFAULT_NL_CONFIG` is LF (0)
as on POSIX builds; `accessibility-check` uses `ParseAcc = ParsePickList`.
The final `{ N_TIDY_OPTIONS, ..., NULL, ... }` sentinel row is represented
by lookups past the end of the list (see `optDef`). -/
def option_defs_0 : List TidyOptionImpl :=
  [ ⟨0,  "unknown!",                    .TidyInteger, 0,  .PNone,     none⟩,
    ⟨1,  "accessibility-check",         .TidyInteger, 0,  .PPick,     some accessPicks⟩,
    ⟨2,  "alt-text",                    .TidyString,  0,  .PString,   none⟩,
    ⟨3,  "anchor-as-name",              .TidyBoolean, 1,  .PPick,     some boolPicks⟩,
    ⟨4,  "ascii-chars",                 .TidyBoolean, 0,  .PPick,     some boolPicks⟩,
    ⟨5,  "new-blocklevel-tags",         .TidyString,  0,  .PTagNames, none⟩,
    ⟨6,  "show-body-only",              .TidyInteger, 0,  .PPick,     some autoBoolPicks⟩,
    ⟨7,  "break-before-br",             .TidyBoolean, 0,  .PPick,     some boolPicks⟩,
    ⟨8,  "char-encoding",               .TidyInteger, 4,  .PCharEnc,  some charEncPicks⟩,
    ⟨9,  "coerce-endtags",              .TidyBoolean, 1,  .PPick,     some boolPicks⟩,
    ⟨10, "css-prefix",                  .TidyString,  0,  .PCSS1,     none⟩ ]

def option_defs_1 : List TidyOptionImpl :=
  [ ⟨11, "new-custom-tags",             .TidyString,  0,  .PTagNames, none⟩,
    ⟨12, "decorate-inferred-ul",        .TidyBoolean, 0,  .PPick,     some boolPicks⟩,
    ⟨13, "doctype",                     .TidyString,  0,  .PDocType,  some doctypePicks⟩,
    ⟨14, "doctype-mode",                .TidyInteger, 2,  .PNone,     some doctypePicks⟩,
    ⟨15, "drop-empty-elements",         .TidyBoolean, 1,  .PPick,     some boolPicks⟩,
    ⟨16, "drop-empty-paras",            .TidyBoolean, 1,  .PPick,     some boolPicks⟩,
    ⟨17, "drop-proprietary-attributes", .TidyBoolean, 0,  .PPick,     some boolPicks⟩,
    ⟨18, "repeated-attributes",         .TidyInteger, 1,  .PPick,     some repeatAttrPicks⟩,
    ⟨19, "gnu-emacs",                   .TidyBoolean, 0,  .PPick,     some boolPicks⟩,
    ⟨20, "gnu-emacs-file",              .TidyString,  0,  .PString,   none⟩,
    ⟨21, "new-empty-tags",              .TidyString,  0,  .PTagNames, none⟩ ]

def option_defs_2 : List TidyOptionImpl :=
  [ ⟨22, "enclose-block-text",          .TidyBoolean, 0,  .PPick,     some boolPicks⟩,
    ⟨23, "enclose-text",                .TidyBoolean, 0,  .PPick,     some boolPicks⟩,
    ⟨24, "error-file",                  .TidyString,  0,  .PString,   none⟩,
    ⟨25, "escape-cdata",                .TidyBoolean, 0,  .PPick,     some boolPicks⟩,
    ⟨26, "escape-scripts",              .TidyBoolean, 1,  .PPick,     some boolPicks⟩,
    ⟨27, "fix-backslash",               .TidyBoolean, 1,  .PPick,     some boolPicks⟩,
    ⟨28, "fix-bad-comments",            .TidyBoolean, 1,  .PPick,     some boolPicks⟩,
    ⟨29, "fix-uri",                     .TidyBoolean, 1,  .PPick,     some boolPicks⟩,
    ⟨30, "force-output",                .TidyBoolean, 0,  .PPick,     some boolPicks⟩,
    ⟨31, "gdoc",                        .TidyBoolean, 0,  .PPick,     some boolPicks⟩,
    ⟨32, "hide-comments",               .TidyBoolean, 0,  .PPick,     some boolPicks⟩ ]

def option_defs_3 : List TidyOptionImpl :=
  [ ⟨33, "output-html",                 .TidyBoolean, 0,  .PPick,     some boolPicks⟩,
    ⟨34, "input-encoding",              .TidyInteger, 4,  .PCharEnc,  some charEncPicks⟩,
    ⟨35, "indent-attributes",           .TidyBoolean, 0,  .PPick,     some boolPicks⟩,
    ⟨36, "indent-cdata",                .TidyBoolean, 0,  .PPick,     some boolPicks⟩,
    ⟨37, "indent",                      .TidyInteger, 0,  .PPick,     some autoBoolPicks⟩,
    ⟨38, "indent-spaces",               .TidyInteger, 2,  .PInt,      none⟩,
    ⟨39, "new-inline-tags",             .TidyString,  0,  .PTagNames, none⟩,
    ⟨40, "join-classes",                .TidyBoolean, 0,  .PPick,     some boolPicks⟩,
    ⟨41, "join-styles",                 .TidyBoolean, 1,  .PPick,     some boolPicks⟩,
    ⟨42, "keep-time",                   .TidyBoolean, 0,  .PPick,     some boolPicks⟩,
    ⟨43, "literal-attributes",          .TidyBoolean, 0,  .PPick,     some boolPicks⟩ ]

def option_defs_4 : List TidyOptionImpl :=
  [ ⟨44, "logical-emphasis",            .TidyBoolean, 0,  .PPick,     some boolPicks⟩,
    ⟨45, "lower-literals",              .TidyBoolean, 1,  .PPick,     some boolPicks⟩,
    ⟨46, "bare",                        .TidyBoolean, 0,  .PPick,     some boolPicks⟩,
    ⟨47, "clean",                       .TidyBoolean, 0,  .PPick,     some boolPicks⟩,
    ⟨48, "tidy-mark",                   .TidyBoolean, 1,  .PPick,     some boolPicks⟩,
    ⟨49, "merge-divs",                  .TidyInteger, 2,  .PPick,     some autoBoolPicks⟩,
    ⟨50, "merge-emphasis",              .TidyBoolean, 1,  .PPick,     some boolPicks⟩,
    ⟨51, "merge-spans",                 .TidyInteger, 2,  .PPick,     some autoBoolPicks⟩,
    ⟨52, "add-meta-charset",            .TidyBoolean, 0,  .PPick,     some boolPicks⟩,
    ⟨53, "ncr",                         .TidyBoolean, 1,  .PPick,     some boolPicks⟩,
    ⟨54, "newline",                     .TidyInteger, 0,  .PPick,     some newlinePicks⟩ ]

def option_defs_5 : List TidyOptionImpl :=
  [ ⟨55, "numeric-entities",            .TidyBoolean, 0,  .PPick,     some boolPicks⟩,
    ⟨56, "omit-optional-tags",          .TidyBoolean, 0,  .PPick,     some boolPicks⟩,
    ⟨57, "output-encoding",             .TidyInteger, 4,  .PCharEnc,  some charEncPicks⟩,
    ⟨58, "output-file",                 .TidyString,  0,  .PString,   none⟩,
    ⟨59, "output-bom",                  .TidyInteger, 2,  .PPick,     some autoBoolPicks⟩,
    ⟨60, "indent-with-tabs",            .TidyBoolean, 0,  .PTabs,     some boolPicks⟩,
    ⟨61, "preserve-entities",           .TidyBoolean, 0,  .PPick,     some boolPicks⟩,
    ⟨62, "new-pre-tags",                .TidyString,  0,  .PTagNames, none⟩,
    ⟨63, "punctuation-wrap",            .TidyBoolean, 0,  .PPick,     some boolPicks⟩,
    ⟨64, "quiet",                       .TidyBoolean, 0,  .PPick,     some boolPicks⟩,
    ⟨65, "quote-ampersand",             .TidyBoolean, 1,  .PPick,     some boolPicks⟩ ]

def option_defs_6 : List TidyOptionImpl :=
  [ ⟨66, "quote-marks",                 .TidyBoolean, 0,  .PPick,     some boolPicks⟩,
    ⟨67, "quote-nbsp",                  .TidyBoolean, 1,  .PPick,     some boolPicks⟩,
    ⟨68, "replace-color",               .TidyBoolean, 0,  .PPick,     some boolPicks⟩,
    ⟨69, "show-errors",                 .TidyInteger, 6,  .PInt,      none⟩,
    ⟨70, "show-info",                   .TidyBoolean, 1,  .PPick,     some boolPicks⟩,
    ⟨71, "markup",                      .TidyBoolean, 1,  .PPick,     some boolPicks⟩,
    ⟨72, "show-meta-change",            .TidyBoolean, 0,  .PPick,     some boolPicks⟩,
    ⟨73, "show-warnings",               .TidyBoolean, 1,  .PPick,     some boolPicks⟩,
    ⟨74, "skip-nested",                 .TidyBoolean, 1,  .PPick,     some boolPicks⟩,
    ⟨75, "sort-attributes",             .TidyInteger, 0,  .PPick,     some sorterPicks⟩,
    ⟨76, "strict-tags-attributes",      .TidyBoolean, 0,  .PPick,     some boolPicks⟩ ]

def option_defs_7 : List TidyOptionImpl :=
  [ ⟨77, "fix-style-tags",              .TidyBoolean, 1,  .PPick,     some boolPicks⟩,
    ⟨78, "tab-size",                    .TidyInteger, 8,  .PInt,      none⟩,
    ⟨79, "uppercase-attributes",        .TidyInteger, 0,  .PPick,     some attributeCasePicks⟩,
    ⟨80, "uppercase-tags",              .TidyBoolean, 0,  .PPick,     some boolPicks⟩,
    ⟨81, "custom-tags",                 .TidyInteger, 0,  .PPick,     some customTagsPicks⟩,
    ⟨82, "vertical-space",              .TidyInteger, 0,  .PPick,     some autoBoolPicks⟩,
    ⟨83, "warn-proprietary-attributes", .TidyBoolean, 1,  .PPick,     some boolPicks⟩,
    ⟨84, "word-2000",                   .TidyBoolean, 0,  .PPick,     some boolPicks⟩,
    ⟨85, "wrap-asp",                    .TidyBoolean, 1,  .PPick,     some boolPicks⟩,
    ⟨86, "wrap-attributes",             .TidyBoolean, 0,  .PPick,     some boolPicks⟩,
    ⟨87, "wrap-jste",                   .TidyBoolean, 1,  .PPick,     some boolPicks⟩ ]

def option_defs_8 : List TidyOptionImpl :=
  [ ⟨88, "wrap",                        .TidyInteger, 68, .PInt,      none⟩,
    ⟨89, "wrap-php",                    .TidyBoolean, 1,  .PPick,     some boolPicks⟩,
    ⟨90, "wrap-script-literals",        .TidyBoolean, 0,  .PPick,     some boolPicks⟩,
    ⟨91, "wrap-sections",               .TidyBoolean, 1,  .PPick,     some boolPicks⟩,
    ⟨92, "write-back",                  .TidyBoolean, 0,  .PPick,     some boolPicks⟩,
    ⟨93, "output-xhtml",                .TidyBoolean, 0,  .PPick,     some boolPicks⟩,
    ⟨94, "add-xml-decl",                .TidyBoolean, 0,  .PPick,     some boolPicks⟩,
    ⟨95, "output-xml",                  .TidyBoolean, 0,  .PPick,     some boolPicks⟩,
    ⟨96, "assume-xml-procins",          .TidyBoolean, 0,  .PPick,     some boolPicks⟩,
    ⟨97, "add-xml-space",               .TidyBoolean, 0,  .PPick,     some boolPicks⟩,
    ⟨98, "input-xml",                   .TidyBoolean, 0,  .PPick,     some boolPicks⟩ ]

def option_defs : List TidyOptionImpl :=
  option_defs_0 ++ option_defs_1 ++ option_defs_2 ++ option_defs_3 ++ option_defs_4 ++ option_defs_5 ++ option_defs_6 ++ option_defs_7 ++ option_defs_8

/-- The sentinel row terminating `option_defs` (NULL name, NULL parser). -/
def sentinelOption : TidyOptionImpl := ⟨N_TIDY_OPTIONS, "", .TidyInteger, 0, .PNone, none⟩

/-- `option_defs[i]`, with indices at or past `N_TIDY_OPTIONS` giving the
sentinel row. -/
def optDef (i : Nat) : TidyOptionImpl := option_defs.getD i sentinelOption

/-- Reported diagnostic conditions (message.c is outside the given source;
the constructors mirror the spec's error kinds). -/
inductive ConfigReport where
  | badArgument (optname : String)
  | unknownOption (optname : String)
  | fileError (file : String)
deriving DecidableEq

/-- The configuration tokenizer state: current character (`config->c`,
`none` = `EndOfStream`) and the remaining characters of the attached input
source. -/
structure ConfigStream where
  c : Option Char
  input : List Char
deriving DecidableEq

/-- The document state visible to the configuration engine: the `current`
and `snapshot` value arrays and `defined_tags` bitset of `TidyConfigImpl`,
the option-error counter and report log (message.c), the externally stored
tag-declaration dictionary (tags.c, modelled), the two unknown-option
callbacks, and the tokenizer state. -/
structure TidyDocImpl where
  value : Nat → TidyOptionValue
  snapshot : Nat → TidyOptionValue
  defined_tags : Nat
  declared_tags : List (Nat × String)
  optionErrors : Nat
  reports : List ConfigReport
  pOptCallback : Option (String → String → Bool)
  pConfigCallback : Option (String → String → Bool)
  stream : ConfigStream

/-- Modelled from the spec: `TY_(ReportBadArgument)` (message.c) records a
bad-argument condition naming the option and increments the option-error
counter. -/
def ReportBadArgument (d : TidyDocImpl) (optname : String) : TidyDocImpl :=
  { d with optionErrors := d.optionErrors + 1,
           reports := d.reports ++ [.badArgument optname] }

/-- Modelled from the spec: `TY_(ReportUnknownOption)` (message.c) records
an unknown-option condition naming the option and increments the
option-error counter. -/
def ReportUnknownOption (d : TidyDocImpl) (optname : String) : TidyDocImpl :=
  { d with optionErrors := d.optionErrors + 1,
           reports := d.reports ++ [.unknownOption optname] }

/-- Modelled from the spec: `TY_(ReportFileError)` (message.c) records the
fatal file-open condition (it does not touch the option-error counter). -/
def ReportFileError (d : TidyDocImpl) (file : String) : TidyDocImpl :=
  { d with reports := d.reports ++ [.fileError file] }

/-- Modelled from the spec: `TY_(DefineTag)` (tags.c) registers a tag name
under a tag category in the external dictionary; re-registering an existing
entry leaves the dictionary unchanged. -/
def DefineTag (d : TidyDocImpl) (tagType : Nat) (name : String) : TidyDocImpl :=
  { d with declared_tags :=
      if (tagType, name) ∈ d.declared_tags then d.declared_tags
      else d.declared_tags ++ [(tagType, name)] }

/-- Modelled from the spec: `TY_(FreeDeclaredTags)` (tags.c) removes the
declared tags of one category; `tagtype_null` removes them all. -/
def FreeDeclaredTags (d : TidyDocImpl) (tagType : Nat) : TidyDocImpl :=
  { d with declared_tags :=
      if tagType = tagtype_null then []
      else d.declared_tags.filter (fun p => p.1 ≠ tagType) }

/-- `SetOptionValue`: store a string option value.  A value of positive
length is duplicated into the slot; an empty or NULL value stores the NULL
pointer.  (`TY_(tmbstrlen)` of NULL is 0.)  Returns the old document when
the id is out of range (`status == no`). -/
def SetOptionValue (d : TidyDocImpl) (optId : Nat) (val : Option String) : TidyDocImpl :=
  if optId < N_TIDY_OPTIONS then
    { d with value := (Function.update d.value optId
        (.strv (match val with
                | some s => if 0 < s.length then some s else none
                | none => none))) }
  else d

/-- `TY_(SetOptionInt)`: store an integer option value (no-op past the
table bound, where the C function only returns `no`). -/
def SetOptionInt (d : TidyDocImpl) (optId v : Nat) : TidyDocImpl :=
  if optId < N_TIDY_OPTIONS then
    { d with value := Function.update d.value optId (.intv v) }
  else d

/-- `TY_(SetOptionBool)`: store a boolean option value.  The C `Bool` is an
integer enum and call sites pass raw pick ordinals, so the argument is a
word. -/
def SetOptionBool (d : TidyDocImpl) (optId v : Nat) : TidyDocImpl :=
  if optId < N_TIDY_OPTIONS then
    { d with value := Function.update d.value optId (.intv v) }
  else d

/-- The `cfg` accessor macro: the integer word of an option slot. -/
def cfgGet (d : TidyDocImpl) (optId : Nat) : Nat := wordOf (d.value optId)

/-- The `cfgBool` accessor macro: nonzero word read as true. -/
def cfgBool (d : TidyDocImpl) (optId : Nat) : Bool := cfgGet d optId ≠ 0

/-- The `cfgAutoBool` accessor macro (tri-state word). -/
def cfgAutoBool (d : TidyDocImpl) (optId : Nat) : Nat := cfgGet d optId

/-- The `cfgStr` accessor macro: the string pointer of an option slot.  (On
a kind-confused integer slot the C macro would reinterpret the word as a
pointer; such a read never occurs on kind-correct stores and is modelled as
NULL.) -/
def cfgStr (d : TidyDocImpl) (optId : Nat) : Option String :=
  match d.value optId with
  | .strv p => p
  | .intv _ => none

/-- `GetOptionDefault`: the default value of a descriptor (`pdflt`, always
NULL, for string options; `dflt` otherwise). -/
def GetOptionDefault (option : TidyOptionImpl) : TidyOptionValue :=
  if option.otype = .TidyString then .strv none else .intv option.dflt

/-- `OptionValueEqDefault`: string options compare the slot pointer with
`pdflt` (NULL), other options compare the integer word with `dflt`. -/
def OptionValueEqDefault (option : TidyOptionImpl) (val : TidyOptionValue) : Bool :=
  if option.otype = .TidyString then wordOf val = 0 else wordOf val = option.dflt

/-- `CopyOptionValue` (value part): a non-NULL, non-default string is
duplicated (same content, fresh storage), anything else is copied as a
word.  The prior content of the destination is released, which has no
observable effect in the content model. -/
def CopyOptionValue (option : TidyOptionImpl) (newval : TidyOptionValue) : TidyOptionValue :=
  if option.otype = .TidyString then
    match newval with
    | .strv (some s) => .strv (some s)
    | v => v
  else newval

/-- `OptionValueIdentical`: string options first compare pointers (equal
only for two NULLs or provably identical storage, whose contents agree),
report NULL versus owned as different, and otherwise compare contents;
other options compare words.  Kind-confused pairs fall back to the raw
word comparison the C pointer test performs. -/
def OptionValueIdentical (option : TidyOptionImpl)
    (val1 val2 : TidyOptionValue) : Bool :=
  if option.otype = .TidyString then
    match val1, val2 with
    | .strv none, .strv none => true
    | .strv (some a), .strv (some b) => a = b
    | .strv none, .strv (some _) => false
    | .strv (some _), .strv none => false
    | v1, v2 => wordOf v1 = wordOf v2
  else wordOf val1 = wordOf val2

/-- `GetC`: pull the next character from the attached input source
(`EndOfStream`, i.e. `none`, once it is exhausted), assigning `config->c`
as every call site does. -/
def GetC : ConfigStream → ConfigStream
  | ⟨_, []⟩ => ⟨none, []⟩
  | ⟨_, x :: xs⟩ => ⟨some x, xs⟩

/-- `FirstChar`: `config->c = GetC(config)`. -/
def FirstChar (s : ConfigStream) : ConfigStream := GetC s

/-- `AdvanceChar`: advance unless already at `EndOfStream`. -/
def AdvanceChar (s : ConfigStream) : ConfigStream :=
  if s.c = none then s else GetC s

def skipWhiteAux : Nat → ConfigStream → ConfigStream
  | 0, s => s
  | fuel + 1, s =>
    match s.c with
    | some ch => if IsWhite ch && !IsNewline ch then skipWhiteAux fuel (GetC s) else s
    | none => s

/-- `SkipWhite`: skip whitespace other than newlines.  The loop is run on
explicit fuel (one unit per character of pending input, plus one), which
covers every iteration the C `while` performs. -/
def SkipWhite (s : ConfigStream) : ConfigStream := skipWhiteAux (s.input.length + 1) s

def skipToEolAux : Nat → ConfigStream → ConfigStream
  | 0, s => s
  | fuel + 1, s =>
    match s.c with
    | some ch => if ch ≠ '\n' && ch ≠ '\r' then skipToEolAux fuel (GetC s) else s
    | none => s

def nextPropertyAux : Nat → ConfigStream → ConfigStream
  | 0, s => s
  | fuel + 1, s =>
    let s := skipToEolAux (s.input.length + 1) s
    let s := if s.c = some '\r' then GetC s else s
    let s := if s.c = some '\n' then GetC s else s
    match s.c with
    | some ch => if IsWhite ch then nextPropertyAux fuel s else s
    | none => s

/-- `NextProperty`: skip to the end of the current physical line, treat
`\r\n`, `\r` or `\n` as the line end, and keep going while the next line
starts with whitespace (line continuation). -/
def NextProperty (s : ConfigStream) : ConfigStream :=
  nextPropertyAux (s.input.length + 2) s

def parseIntLoop : Nat → ConfigStream → Nat → Bool → ConfigStream × Nat × Bool
  | 0, s, number, digits => (s, number, digits)
  | fuel + 1, s, number, digits =>
    match s.c with
    | some ch =>
      if IsDigit ch then
        parseIntLoop fuel (AdvanceChar s) (ch.toNat - '0'.toNat + 10 * number) true
      else (s, number, digits)
    | none => (s, number, digits)

/-- `ParseInt`: skip leading non-newline whitespace, accumulate decimal
digits, fail (reporting a bad argument) when no digit was read, store the
number otherwise. -/
def ParseInt (d : TidyDocImpl) (entry : TidyOptionImpl) : TidyDocImpl × Bool :=
  let s := SkipWhite d.stream
  let (s, number, digits) := parseIntLoop (s.input.length + 1) s 0 false
  let d := { d with stream := s }
  if !digits then (ReportBadArgument d entry.name, false)
  else (SetOptionInt d entry.id number, true)

def collectStringLoop : Nat → ConfigStream → Option Char → Bool → String →
    String × ConfigStream
  | 0, s, _, _, buf => (buf, s)
  | fuel + 1, s, delim, waswhite, buf =>
    match s.c with
    | none => (buf, s)
    | some ch =>
      if ¬ (buf.length < 8190) then (buf, s)
      else if ch = '\r' ∨ ch = '\n' then (buf, s)
      else if delim = some ch then (buf, s)
      else if IsWhite ch then
        if waswhite then collectStringLoop fuel (AdvanceChar s) delim waswhite buf
        else collectStringLoop fuel (AdvanceChar s) delim waswhite (buf.push ' ')
      else collectStringLoop fuel (AdvanceChar s) delim false (buf.push ch)

/-- The body of `ParseString` (also inlined by the unknown-option callback
path of `TY_(ParseConfigFileEnc)`): optional `"` or `'` delimiter, copy to
end of line / delimiter / end of stream, initial whitespace skipped via
`waswhite`, later whitespace stored as a single space each. -/
def collectString (s0 : ConfigStream) : String × ConfigStream :=
  let s := SkipWhite s0
  match s.c with
  | some ch =>
    if ch = '"' ∨ ch = '\'' then
      collectStringLoop (s.input.length + 2) (AdvanceChar s) (some ch) true ""
    else collectStringLoop (s.input.length + 2) s none true ""
  | none => collectStringLoop (s.input.length + 2) s none true ""

/-- `ParseString`: collect a (possibly delimited) string and store it; never
fails. -/
def ParseString (d : TidyDocImpl) (option : TidyOptionImpl) : TidyDocImpl × Bool :=
  let (buf, s) := collectString d.stream
  let d := { d with stream := s }
  (SetOptionValue d option.id (some buf), true)

def pickTokLoop : Nat → ConfigStream → String → String × ConfigStream
  | 0, s, work => (work, s)
  | fuel + 1, s, work =>
    match s.c with
    | some ch =>
      if work.length < 16 && !IsWhite ch && ch ≠ '\r' && ch ≠ '\n' then
        pickTokLoop fuel (AdvanceChar s) (work.push ch)
      else (work, s)
    | none => (work, s)

def pickListLookupAux (work : String) : PickListItems → Nat → Option Nat
  | [], _ => none
  | item :: rest, ix =>
    if item.2.any (fun input => strCaseEq work input) then some ix
    else pickListLookupAux work rest (ix + 1)

/-- Scan of the pick-list choices: the position of the first choice one of
whose accepted spellings equals the token case-insensitively. -/
def pickListLookup (pl : PickListItems) (work : String) : Option Nat :=
  pickListLookupAux work pl 0

/-- `GetParsePickListValue`: read a bounded bare token and resolve it
against the entry's pick list; on failure report a bad argument naming the
option.  (The C code dereferences the pick list unconditionally; every
option dispatched here carries one.) -/
def GetParsePickListValue (d : TidyDocImpl) (entry : TidyOptionImpl) :
    TidyDocImpl × Option Nat :=
  let s := SkipWhite d.stream
  let (work, s) := pickTokLoop (s.input.length + 2) s ""
  let d := { d with stream := s }
  match entry.pickList with
  | some pl =>
    match pickListLookup pl work with
    | some ix => (d, some ix)
    | none => (ReportBadArgument d entry.name, none)
  | none => (ReportBadArgument d entry.name, none)

/-- `ParsePickList`: resolve via the pick-list engine and store the ordinal
as Boolean or Integer per the descriptor kind; on failure report a bad
argument (a second time) and leave the store alone. -/
def ParsePickList (d : TidyDocImpl) (entry : TidyOptionImpl) : TidyDocImpl × Bool :=
  match GetParsePickListValue d entry with
  | (d, some value) =>
    if entry.otype = .TidyBoolean then (SetOptionBool d entry.id value, true)
    else if entry.otype = .TidyInteger then (SetOptionInt d entry.id value, true)
    else (d, true)
  | (d, none) => (ReportBadArgument d entry.name, false)

/-- `ParseTabs`: boolean pick list; when true also force `indent-spaces`
to 1 (no auto-revert when false). -/
def ParseTabs (d : TidyDocImpl) (entry : TidyOptionImpl) : TidyDocImpl × Bool :=
  match GetParsePickListValue d entry with
  | (d, some flag) =>
    let tabs : Nat := if flag ≠ 0 then 1 else 0
    let d := SetOptionBool d entry.id tabs
    let d := if tabs ≠ 0 then SetOptionInt d TidyIndentSpaces 1 else d
    (d, true)
  | (d, none) => (d, false)

/-- Modelled from the spec: `TY_(GetCharEncodingFromOptName)` (streamio.c),
the external encoding name → id table, over the encoding option names of
`charEncPicks`. -/
def GetCharEncodingFromOptName (charenc : String) : Option Nat :=
  if charenc = "raw" then some RAW
  else if charenc = "ascii" then some ASCII
  else if charenc = "latin0" then some LATIN0
  else if charenc = "latin1" then some LATIN1
  else if charenc = "utf8" then some UTF8
  else if charenc = "iso2022" then some ISO2022
  else if charenc = "mac" then some MACROMAN
  else if charenc = "win1252" then some WIN1252
  else if charenc = "ibm858" then some IBM858
  else if charenc = "utf16le" then some UTF16LE
  else if charenc = "utf16be" then some UTF16BE
  else if charenc = "utf16" then some UTF16
  else if charenc = "big5" then some BIG5
  else if charenc = "shiftjis" then some SHIFTJIS
  else none

/-- `TY_(CharEncodingId)`: the name lookup (the Win32 MLANG extension is
compiled out). -/
def CharEncodingId (charenc : String) : Option Nat :=
  GetCharEncodingFromOptName charenc

/-- `TY_(AdjustCharEncoding)`: derive the input/output encodings paired
with a primary encoding; unmapped encodings change nothing and answer no. -/
def AdjustCharEncoding (d : TidyDocImpl) (encoding : Nat) : TidyDocImpl × Bool :=
  let pair : Option (Nat × Nat) :=
    if encoding = MACROMAN then some (MACROMAN, ASCII)
    else if encoding = WIN1252 then some (WIN1252, ASCII)
    else if encoding = IBM858 then some (IBM858, ASCII)
    else if encoding = ASCII then some (LATIN1, ASCII)
    else if encoding = LATIN0 then some (LATIN0, ASCII)
    else if encoding = RAW ∨ encoding = LATIN1 ∨ encoding = UTF8 ∨
            encoding = ISO2022 ∨ encoding = UTF16LE ∨ encoding = UTF16BE ∨
            encoding = UTF16 ∨ encoding = SHIFTJIS ∨ encoding = BIG5 then
      some (encoding, encoding)
    else none
  match pair with
  | some (inenc, outenc) =>
    let d := SetOptionInt d TidyCharEncoding encoding
    let d := SetOptionInt d TidyInCharEncoding inenc
    let d := SetOptionInt d TidyOutCharEncoding outenc
    (d, true)
  | none => (d, false)

def charEncTokLoop : Nat → ConfigStream → String → String × ConfigStream
  | 0, s, buf => (buf, s)
  | fuel + 1, s, buf =>
    match s.c with
    | some ch =>
      if buf.length < 62 && !IsWhite ch then
        charEncTokLoop fuel (AdvanceChar s) (buf.push (ToLower ch))
      else (buf, s)
    | none => (buf, s)

/-- `ParseCharEnc`: read a lower-cased token, resolve it through the
encoding-name table, store it, and when the option being set is the primary
`char-encoding` run the paired input/output derivation. -/
def ParseCharEnc (d : TidyDocImpl) (option : TidyOptionImpl) : TidyDocImpl × Bool :=
  let s := SkipWhite d.stream
  let (buf, s) := charEncTokLoop (s.input.length + 2) s ""
  let d := { d with stream := s }
  match CharEncodingId buf with
  | none => (ReportBadArgument d option.name, false)
  | some enc =>
    let d := SetOptionInt d option.id enc
    let d := if option.id = TidyCharEncoding then (AdjustCharEncoding d enc).1 else d
    (d, true)

/-- `ParseDocType`: a quoted form delegates to `ParseString` and marks the
doctype mode user-supplied; otherwise pick-list resolution stores the
ordinal as the doctype mode. -/
def ParseDocType (d : TidyDocImpl) (option : TidyOptionImpl) : TidyDocImpl × Bool :=
  let s := SkipWhite d.stream
  let d := { d with stream := s }
  if s.c = some '"' ∨ s.c = some '\'' then
    let (d, status) := ParseString d option
    (if status then SetOptionInt d TidyDoctypeMode TidyDoctypeUser else d, status)
  else
    match GetParsePickListValue d option with
    | (d, some value) => (SetOptionInt d TidyDoctypeMode value, true)
    | (d, none) => (ReportBadArgument d option.name, false)

/-- Modelled from the spec: `TY_(IsCSS1Selector)` (lexer.c) — validity of a
CSS class-name prefix: a leading ASCII letter followed by letters, digits,
hyphens or underscores. -/
def IsCSS1Selector (s : String) : Bool :=
  match s.data with
  | [] => false
  | c :: rest =>
    (('a' ≤ c && c ≤ 'z') || ('A' ≤ c && c ≤ 'Z')) &&
    rest.all (fun ch => ('a' ≤ ch && ch ≤ 'z') || ('A' ≤ ch && ch ≤ 'Z') ||
                        ('0' ≤ ch && ch ≤ '9') || ch = '-' || ch = '_')

def css1TokLoop : Nat → ConfigStream → String → String × ConfigStream
  | 0, s, buf => (buf, s)
  | fuel + 1, s, buf =>
    match s.c with
    | some ch =>
      if buf.length < 254 && !IsWhite ch then
        css1TokLoop fuel (AdvanceChar s) (buf.push ch)
      else (buf, s)
    | none => (buf, s)

/-- `ParseCSS1Selector`: read a bare token; an empty token fails silently,
an invalid selector fails with a bad-argument report, and a valid one is
stored with a `-` suffix. -/
def ParseCSS1Selector (d : TidyDocImpl) (option : TidyOptionImpl) : TidyDocImpl × Bool :=
  let s := SkipWhite d.stream
  let (buf, s) := css1TokLoop (s.input.length + 2) s ""
  let d := { d with stream := s }
  if buf.length = 0 then (d, false)
  else if !IsCSS1Selector buf then (ReportBadArgument d option.name, false)
  else (SetOptionValue d option.id (some (buf.push '-')), true)

/-- `TY_(DeclareUserTag)`: append the name to the option's comma-joined
string value and register it in the external tag dictionary. -/
def DeclareUserTag (d : TidyDocImpl) (optId : Nat) (tagType : Nat)
    (name : String) : TidyDocImpl :=
  let prvval := cfgStr d optId
  let theval := match prvval with
    | some pv => pv ++ ", " ++ name
    | none => name
  let d := DefineTag d tagType name
  SetOptionValue d optId (some theval)

def scanTagWord : Nat → ConfigStream → String → String × ConfigStream
  | 0, s, buf => (buf, s)
  | fuel + 1, s, buf =>
    match s.c with
    | some ch =>
      if buf.length < 1022 && !IsWhite ch && ch ≠ ',' then
        scanTagWord fuel (AdvanceChar s) (buf.push ch)
      else (buf, s)
    | none => (buf, s)

/-- The word-scanning tail of the `ParseTagNames` body: empty words are
skipped, others are declared. -/
def tagNamesWord (optId tagType : Nat) (d : TidyDocImpl) (nTags : Nat) :
    TidyDocImpl × Nat × Bool :=
  let (buf, s) := scanTagWord (d.stream.input.length + 2) d.stream ""
  let d := { d with stream := s }
  if buf.length = 0 then (d, nTags, false)
  else (DeclareUserTag d optId tagType buf, nTags + 1, false)

/-- One iteration of the `ParseTagNames` do-while body.  The `Bool` result
distinguishes `break` (true) from falling to the loop condition (false). -/
def tagNamesStep (optId tagType : Nat) (d : TidyDocImpl) (nTags : Nat) :
    TidyDocImpl × Nat × Bool :=
  match d.stream.c with
  | some ch =>
    if ch = ' ' ∨ ch = '\t' ∨ ch = ',' then
      ({ d with stream := AdvanceChar d.stream }, nTags, false)
    else if ch = '\r' ∨ ch = '\n' then
      let s1 := AdvanceChar d.stream
      let s2 := if ch = '\r' ∧ s1.c = some '\n' then AdvanceChar s1 else s1
      match s2.c with
      | some c2 =>
        if ¬ IsWhite c2 then
          -- unget the continuation char and a synthetic line break; the
          -- current character keeps its value (C pushes back into the
          -- source only)
          (({ d with stream := ⟨some c2, '\n' :: c2 :: s2.input⟩ } : TidyDocImpl),
           nTags, true)
        else
          tagNamesWord optId tagType { d with stream := s2 } nTags
      | none =>
        -- at end of stream the C code ungets the EndOfStream word and a
        -- line break; reading those back yields the line break and then
        -- end of stream again
        (({ d with stream := ⟨none, ['\n']⟩ } : TidyDocImpl), nTags, true)
    else tagNamesWord optId tagType d nTags
  | none => tagNamesWord optId tagType d nTags

def tagNamesLoop (optId tagType : Nat) : Nat → TidyDocImpl → Nat → TidyDocImpl × Nat
  | 0, d, nTags => (d, nTags)
  | fuel + 1, d, nTags =>
    match tagNamesStep optId tagType d nTags with
    | (d, nTags, true) => (d, nTags)
    | (d, nTags, false) =>
      if d.stream.c = none then (d, nTags)
      else tagNamesLoop optId tagType fuel d nTags

/-- `ParseTagNames`: select the tag category from the option id (the
custom-tags option reads its category from `custom-tags`' current word),
clear the option's slot and the category's dictionary entries, then declare
each comma/space-separated name, following indented line continuations;
fails only when no tag was declared. -/
def ParseTagNames (d : TidyDocImpl) (option : TidyOptionImpl) : TidyDocImpl × Bool :=
  let s := SkipWhite d.stream
  let d := { d with stream := s }
  let ttyp : Option Nat :=
    if option.id = TidyInlineTags then some tagtype_inline
    else if option.id = TidyBlockTags then some tagtype_block
    else if option.id = TidyEmptyTags then some tagtype_empty
    else if option.id = TidyPreTags then some tagtype_pre
    else if option.id = TidyCustomTags then some (cfgGet d TidyUseCustomTags)
    else none
  match ttyp with
  | none => (ReportUnknownOption d option.name, false)
  | some ttyp =>
    let d := SetOptionValue d option.id none
    let d := FreeDeclaredTags d ttyp
    let d := { d with defined_tags := d.defined_tags ||| ttyp }
    let r := tagNamesLoop option.id ttyp (d.stream.input.length + 2) d 0
    (r.1, 0 < r.2)

/-- `TY_(lookupOption)`: case-insensitive scan of the registry by canonical
name. -/
def lookupOption (s : String) : Option TidyOptionImpl :=
  option_defs.find? (fun np => strCaseEq s np.name)

/-- Dispatch through the descriptor's parser reference.  The NULL parser is
never invoked through `TY_(ParseConfigValue)` (rejected earlier); the
config-file loop would call a null function pointer, which no execution of
interest reaches. -/
def runParser (d : TidyDocImpl) (option : TidyOptionImpl) : TidyDocImpl × Bool :=
  match option.parser with
  | .PNone => (d, false)
  | .PInt => ParseInt d option
  | .PString => ParseString d option
  | .PCSS1 => ParseCSS1Selector d option
  | .PTagNames => ParseTagNames d option
  | .PCharEnc => ParseCharEnc d option
  | .PDocType => ParseDocType d option
  | .PTabs => ParseTabs d option
  | .PPick => ParsePickList d option

/-- `TY_(ParseConfigValue)`: fail (reporting) on an out-of-range id, a NULL
parser or a NULL value; otherwise attach the value as an input buffer and
run the option's parser.  The attached buffer's terminating NUL is
invisible to C string values and is not materialised. -/
def ParseConfigValue (d : TidyDocImpl) (optId : Nat) (optval : Option String) :
    TidyDocImpl × Bool :=
  if optId < N_TIDY_OPTIONS then
    let option := optDef optId
    match optval with
    | some sv =>
      if option.parser ≠ .PNone then
        let d := { d with stream := GetC ⟨none, sv.data⟩ }
        runParser d option
      else (ReportBadArgument d option.name, false)
    | none => (ReportBadArgument d option.name, false)
  else (ReportUnknownOption d (toString optId), false)

/-- `AdjustConfig` rule 1: enclose-block-text forces enclose-text. -/
def adjStep1 (d : TidyDocImpl) : TidyDocImpl :=
  if cfgBool d TidyEncloseBlockText then SetOptionBool d TidyEncloseBodyText 1 else d

/-- `AdjustConfig` rule 2: indent mode off zeroes the indent width. -/
def adjStep2 (d : TidyDocImpl) : TidyDocImpl :=
  if cfgAutoBool d TidyIndentContent = 0 then SetOptionInt d TidyIndentSpaces 0 else d

/-- `AdjustConfig` rule 3: wrap width 0 becomes the maximum width. -/
def adjStep3 (d : TidyDocImpl) : TidyDocImpl :=
  if cfgGet d TidyWrapLen = 0 then SetOptionInt d TidyWrapLen 0x7FFFFFFF else d

/-- `AdjustConfig` rule 4: Word-2000 clean declares `o:p` inline. -/
def adjStep4 (d : TidyDocImpl) : TidyDocImpl :=
  if cfgBool d TidyWord2000 then
    DefineTag { d with defined_tags := d.defined_tags ||| tagtype_inline }
      tagtype_inline "o:p"
  else d

/-- `AdjustConfig` rule 5: XML input disables XHTML output. -/
def adjStep5 (d : TidyDocImpl) : TidyDocImpl :=
  if cfgBool d TidyXmlTags then SetOptionBool d TidyXhtmlOut 0 else d

/-- `AdjustConfig` rule 6: XHTML output forces XML output and lower case. -/
def adjStep6 (d : TidyDocImpl) : TidyDocImpl :=
  if cfgBool d TidyXhtmlOut then
    let d := SetOptionBool d TidyXmlOut 1
    let d := SetOptionBool d TidyUpperCaseTags 0
    SetOptionInt d TidyUpperCaseAttrs 0
  else d

/-- `AdjustConfig` rule 7: XML input forces XML output and XML procins. -/
def adjStep7 (d : TidyDocImpl) : TidyDocImpl :=
  if cfgBool d TidyXmlTags then
    let d := SetOptionBool d TidyXmlOut 1
    SetOptionBool d TidyXmlPIs 1
  else d

/-- `AdjustConfig` rule 8: a non-basic output encoding with XML output
forces an XML declaration. -/
def adjStep8 (d : TidyDocImpl) : TidyDocImpl :=
  if cfgGet d TidyOutCharEncoding ≠ ASCII ∧ cfgGet d TidyOutCharEncoding ≠ UTF8 ∧
     cfgGet d TidyOutCharEncoding ≠ UTF16 ∧ cfgGet d TidyOutCharEncoding ≠ UTF16BE ∧
     cfgGet d TidyOutCharEncoding ≠ UTF16LE ∧ cfgGet d TidyOutCharEncoding ≠ RAW ∧
     cfgBool d TidyXmlOut then
    SetOptionBool d TidyXmlDecl 1
  else d

/-- `AdjustConfig` rule 9: XML output forces a BOM for UTF-16 output
encodings, ampersand quoting, and no optional-tag omission. -/
def adjStep9 (d : TidyDocImpl) : TidyDocImpl :=
  if cfgBool d TidyXmlOut then
    let enc := cfgGet d TidyOutCharEncoding
    let d := if enc = UTF16LE ∨ enc = UTF16BE ∨ enc = UTF16 then
               SetOptionInt d TidyOutputBOM 1
             else d
    let d := SetOptionBool d TidyQuoteAmpersand 1
    SetOptionBool d TidyOmitOptionalTags 0
  else d

/-- `AdjustConfig`: the consistency pass over the value store, rules in
source order. -/
def AdjustConfig (d : TidyDocImpl) : TidyDocImpl :=
  adjStep9 (adjStep8 (adjStep7 (adjStep6 (adjStep5 (adjStep4
    (adjStep3 (adjStep2 (adjStep1 d))))))))

/-- `TY_(ResetConfigToDefault)`: copy every descriptor default into the
current array and clear all declared tags. -/
def ResetConfigToDefault (d : TidyDocImpl) : TidyDocImpl :=
  let d := { d with value := (fun ix =>
    if ix < N_TIDY_OPTIONS then CopyOptionValue (optDef ix) (GetOptionDefault (optDef ix))
    else d.value ix) }
  FreeDeclaredTags d tagtype_null

/-- `TY_(TakeConfigSnapshot)`: run the consistency pass, then deep-copy
`current` into `snapshot`. -/
def TakeConfigSnapshot (d : TidyDocImpl) : TidyDocImpl :=
  let d := AdjustConfig d
  { d with snapshot := (fun ix =>
      if ix < N_TIDY_OPTIONS then CopyOptionValue (optDef ix) (d.value ix)
      else d.snapshot ix) }

/-- `NeedReparseTagDecls`: whether any of the four tag-declaration options
differs between the two arrays, and the bitmask of changed categories. -/
def NeedReparseTagDecls (current newv : Nat → TidyOptionValue) : Bool × Nat :=
  (List.range N_TIDY_OPTIONS).foldl
    (fun acc ix =>
      let tagbit : Option Nat :=
        if ix = TidyInlineTags then some tagtype_inline
        else if ix = TidyBlockTags then some tagtype_block
        else if ix = TidyEmptyTags then some tagtype_empty
        else if ix = TidyPreTags then some tagtype_pre
        else none
      match tagbit with
      | some bit =>
        if ¬ OptionValueIdentical (optDef ix) (current ix) (newv ix) then
          (true, acc.2 ||| bit)
        else acc
      | none => acc)
    (false, tagtype_null)

/-- `ReparseTagType`: re-parse an option's stored tag-declaration string
(duplicated before the parse frees it). -/
def ReparseTagType (d : TidyDocImpl) (optId : Nat) : TidyDocImpl :=
  (ParseConfigValue d optId (cfgStr d optId)).1

/-- `ReparseTagDecls`: for each changed category, clear its dictionary
entries and re-parse the (restored) option string. -/
def ReparseTagDecls (d : TidyDocImpl) (changedUserTags : Nat) : TidyDocImpl :=
  let d := if changedUserTags &&& tagtype_inline ≠ 0 then
             ReparseTagType (FreeDeclaredTags d tagtype_inline) TidyInlineTags
           else d
  let d := if changedUserTags &&& tagtype_block ≠ 0 then
             ReparseTagType (FreeDeclaredTags d tagtype_block) TidyBlockTags
           else d
  let d := if changedUserTags &&& tagtype_empty ≠ 0 then
             ReparseTagType (FreeDeclaredTags d tagtype_empty) TidyEmptyTags
           else d
  if changedUserTags &&& tagtype_pre ≠ 0 then
    ReparseTagType (FreeDeclaredTags d tagtype_pre) TidyPreTags
  else d

/-- `TY_(ResetConfigToSnapshot)`: detect changed tag-declaration options,
copy `snapshot` into `current`, and re-register tags if any differed. -/
def ResetConfigToSnapshot (d : TidyDocImpl) : TidyDocImpl :=
  let needReparse := NeedReparseTagDecls d.value d.snapshot
  let d := { d with value := (fun ix =>
    if ix < N_TIDY_OPTIONS then CopyOptionValue (optDef ix) (d.snapshot ix)
    else d.value ix) }
  if needReparse.1 then ReparseTagDecls d needReparse.2 else d

/-- `TY_(ConfigDiffThanSnapshot)`: `memcmp` of the two value arrays; see
the raw-word model `MemConfigDiffThanSnapshot` below for the claim about
its comparison semantics. -/
def ConfigDiffThanSnapshot (d : TidyDocImpl) : Bool :=
  (List.range N_TIDY_OPTIONS).any (fun ix => d.value ix ≠ d.snapshot ix)

/-- `TY_(ConfigDiffThanDefault)`: walk the table from `option_defs + 1`
while the running `val` pointer starts at `&doc->config.value[0]`, so row
`k + 1` is compared against slot `k`; stops at the first difference or at
the sentinel's NULL name. -/
def ConfigDiffThanDefault (d : TidyDocImpl) : Bool :=
  (List.range (N_TIDY_OPTIONS - 1)).any
    (fun k => ! OptionValueEqDefault (optDef (k + 1)) (d.value k))

def scanPropNameLoop : Nat → ConfigStream → String → String × ConfigStream
  | 0, s, name => (name, s)
  | fuel + 1, s, name =>
    match s.c with
    | some ch =>
      if name.length < 63 && ch ≠ '\n' && ch ≠ ':' then
        scanPropNameLoop fuel (AdvanceChar s) (name.push ch)
      else (name, s)
    | none => (name, s)

/-- The property-name scan of the config-file loop: up to 63 characters,
stopped by `'\n'`, `':'` or end of stream (notably not by `'\r'`). -/
def scanPropName (s : ConfigStream) : String × ConfigStream :=
  scanPropNameLoop (s.input.length + 1) s ""

/-- The unknown-option path of the file loop when a callback is installed:
collect the value with the inlined `ParseString` loop, offer the pair to
the callbacks, and report only if both decline. -/
def unknownOptionViaCallback (d : TidyDocImpl) (name : String) : TidyDocImpl :=
  let s := SkipWhite d.stream
  let (buf, s) :=
    match s.c with
    | some ch =>
      if ch = '"' ∨ ch = '\'' then
        collectStringLoop (s.input.length + 2) (AdvanceChar s) (some ch) true ""
      else collectStringLoop (s.input.length + 2) s none true ""
    | none => collectStringLoop (s.input.length + 2) s none true ""
  let d := { d with stream := s }
  let response := true
  let response := match d.pOptCallback with
    | some cb => response && cb name buf
    | none => response
  let response := match d.pConfigCallback with
    | some cb => response && cb name buf
    | none => response
  if response = false then ReportUnknownOption d name else d

/-- One body of the config-file `for` loop: skip comments, scan the
property name, and on reaching `':'` dispatch to the option's parser or to
the unknown-option handling. -/
def stepProperty (d : TidyDocImpl) : TidyDocImpl :=
  match d.stream.c with
  | none => d
  | some ch =>
    if ch = '/' ∨ ch = '#' then d
    else
      let (name, s1) := scanPropName d.stream
      let d := { d with stream := s1 }
      if s1.c = some ':' then
        let d := { d with stream := AdvanceChar s1 }
        match lookupOption name with
        | some option => (runParser d option).1
        | none =>
          if d.pOptCallback.isSome ∨ d.pConfigCallback.isSome then
            unknownOptionViaCallback d name
          else ReportUnknownOption d name
      else d

def parseLoop : Nat → TidyDocImpl → TidyDocImpl
  | 0, d => d
  | fuel + 1, d =>
    if d.stream.c = none then d
    else
      let d := stepProperty d
      let d := { d with stream := NextProperty d.stream }
      parseLoop fuel d

/-- `TY_(ParseConfigFileEnc)`: open the file (its content stands in for the
`FILE*`; `none` is a failed `fopen`) and resolve the configured encoding
name; on failure report the fatal file error and answer -1.  Otherwise
parse property by property, release the input source, run the consistency
pass, and answer 1 exactly when the option-error counter grew. -/
def ParseConfigFileEnc (d : TidyDocImpl) (file : String)
    (content : Option (List Char)) (charenc : String) : TidyDocImpl × Int :=
  let opterrs := d.optionErrors
  if content = none ∨ CharEncodingId charenc = none then
    (ReportFileError d file, -1)
  else
    let chars := content.getD []
    let s := FirstChar ⟨none, chars⟩
    let s := SkipWhite s
    let d := { d with stream := s }
    let d := parseLoop (chars.length + 2) d
    let d := { d with stream := ⟨none, []⟩ }
    let d := AdjustConfig d
    (d, if opterrs < d.optionErrors then 1 else 0)

/-!  Raw-word model of `TY_(ConfigDiffThanSnapshot)`.

The C function compares the two `TidyOptionValue` arrays with `memcmp`,
i.e. word for word: an integer slot contributes its number and a string
slot contributes its pointer.  To state what pointer comparison does to
owned strings, this model keeps explicit addresses: each slot of the
`current` and `snapshot` arrays is a raw machine word, and a heap assigns
contents to (nonzero) string addresses.  The model fixes the ILP32 layout,
where `sizeof(TidyOptionValue) == sizeof(uint)` and the compared length
`N_TIDY_OPTIONS * sizeof(uint)` covers the arrays exactly. -/
structure MemConfig where
  value : Nat → Nat
  snapshot : Nat → Nat
  heap : Nat → String

/-- `TY_(ConfigDiffThanSnapshot)` on the raw-word model: the `memcmp`
differs exactly when some slot's words differ. -/
def MemConfigDiffThanSnapshot (m : MemConfig) : Bool :=
  (List.range N_TIDY_OPTIONS).any (fun ix => m.value ix ≠ m.snapshot ix)

/-- Stated from the spec (for comparison with the code): slot `ix` of
`current` and `snapshot` is structurally equal when, for a string-kind
option, the two slots either both alias the shared default sentinel (NULL)
or are owned strings (nonzero addresses) with equal content, and, for an
integer- or boolean-kind option, the stored numbers are equal. -/
def specSlotStructEq (m : MemConfig) (ix : Nat) : Prop :=
  if (optDef ix).otype = .TidyString then
    (m.value ix = 0 ∧ m.snapshot ix = 0) ∨
    (m.value ix ≠ 0 ∧ m.snapshot ix ≠ 0 ∧
     m.heap (m.value ix) = m.heap (m.snapshot ix))
  else m.value ix = m.snapshot ix

/-- Stated from the spec: structural equality of the whole store. -/
def specStructEq (m : MemConfig) : Prop :=
  ∀ ix < N_TIDY_OPTIONS, specSlotStructEq m ix

instance (m : MemConfig) (ix : Nat) : Decidable (specSlotStructEq m ix) := by
  unfold specSlotStructEq; infer_instance

instance (m : MemConfig) : Decidable (specStructEq m) := by
  unfold specStructEq; infer_instance

/-- The configuration state right after `TY_(InitConfig)`: memory zeroed,
then every option reset to its descriptor default; no callbacks, no
attached input. -/
def initDoc : TidyDocImpl :=
  { value := fun ix =>
      if ix < N_TIDY_OPTIONS then GetOptionDefault (optDef ix) else .intv 0,
    snapshot := fun _ => .intv 0,
    defined_tags := 0, declared_tags := [], optionErrors := 0, reports := [],
    pOptCallback := none, pConfigCallback := none, stream := ⟨none, []⟩ }

/-- A memory state whose only populated slot is the string option
`alt-text` (index 2): current and snapshot hold owned strings at distinct
addresses (100 and 200) with the same content. -/
def memEqualContentDistinctStorage : MemConfig :=
  { value := fun ix => if ix = TidyAltText then 100 else 0,
    snapshot := fun ix => if ix = TidyAltText then 200 else 0,
    heap := fun _ => "x" }

/-- An all-NULL / all-zero memory state. -/
def memAllZero : MemConfig :=
  { value := fun _ => 0, snapshot := fun _ => 0, heap := fun _ => "" }

/-- A document whose slot for `new-blocklevel-tags` holds an owned string,
with no pending input:  feeding the tag-name parser an empty value from
here exhibits the C1 counterexample. -/
def docBlockFoo : TidyDocImpl :=
  { initDoc with value := Function.update initDoc.value TidyBlockTags (.strv (some "foo")) }

/-- A document positioned on the single character `x` (a non-digit,
non-pick value). -/
def docBadTok : TidyDocImpl := { initDoc with stream := ⟨some 'x', []⟩ }

/-- The two-line configuration file exercised by C9: an unknown property
followed by a valid one. -/
def c9FileChars : List Char := ("badopt: x\ntab-size: 5\n").data

/-- A document positioned at the start of the `badopt` property of that
file (the state the parse loop is in when it meets the unknown name). -/
def docAtBadopt : TidyDocImpl :=
  { initDoc with stream := ⟨some 'b', ("adopt: x\ntab-size: 5\n").data⟩ }

theorem SetOptionInt_value (d : TidyDocImpl) (j v i : Nat) (hj : j < N_TIDY_OPTIONS) :
    (SetOptionInt d j v).value i = if i = j then .intv v else d.value i := by
  simp [SetOptionInt, hj, Function.update_apply]

theorem SetOptionBool_value (d : TidyDocImpl) (j v i : Nat) (hj : j < N_TIDY_OPTIONS) :
    (SetOptionBool d j v).value i = if i = j then .intv v else d.value i := by
  simp [SetOptionBool, hj, Function.update_apply]

theorem adjStep1_value (d : TidyDocImpl) (i : Nat) :
    (adjStep1 d).value i =
      if cfgBool d TidyEncloseBlockText ∧ i = TidyEncloseBodyText then .intv 1
      else d.value i := by
  unfold adjStep1
  split <;> simp_all [SetOptionBool_value, TidyEncloseBodyText, N_TIDY_OPTIONS]

theorem adjStep2_value (d : TidyDocImpl) (i : Nat) :
    (adjStep2 d).value i =
      if cfgAutoBool d TidyIndentContent = 0 ∧ i = TidyIndentSpaces then .intv 0
      else d.value i := by
  unfold adjStep2
  split <;> simp_all [SetOptionInt_value, TidyIndentSpaces, N_TIDY_OPTIONS]

theorem adjStep3_value (d : TidyDocImpl) (i : Nat) :
    (adjStep3 d).value i =
      if cfgGet d TidyWrapLen = 0 ∧ i = TidyWrapLen then .intv 0x7FFFFFFF
      else d.value i := by
  unfold adjStep3
  split <;> simp_all [SetOptionInt_value, TidyWrapLen, N_TIDY_OPTIONS]

theorem adjStep4_value (d : TidyDocImpl) (i : Nat) :
    (adjStep4 d).value i = d.value i := by
  unfold adjStep4 DefineTag
  split <;> rfl

theorem adjStep5_value (d : TidyDocImpl) (i : Nat) :
    (adjStep5 d).value i =
      if cfgBool d TidyXmlTags ∧ i = TidyXhtmlOut then .intv 0 else d.value i := by
  unfold adjStep5
  split <;> simp_all [SetOptionBool_value, TidyXhtmlOut, N_TIDY_OPTIONS]

theorem adjStep6_value (d : TidyDocImpl) (i : Nat) :
    (adjStep6 d).value i =
      if cfgBool d TidyXhtmlOut then
        if i = TidyUpperCaseAttrs then .intv 0
        else if i = TidyUpperCaseTags then .intv 0
        else if i = TidyXmlOut then .intv 1
        else d.value i
      else d.value i := by
  unfold adjStep6
  split <;>
    simp_all [SetOptionBool_value, SetOptionInt_value, TidyUpperCaseAttrs,
      TidyUpperCaseTags, TidyXmlOut, N_TIDY_OPTIONS]

theorem adjStep7_value (d : TidyDocImpl) (i : Nat) :
    (adjStep7 d).value i =
      if cfgBool d TidyXmlTags then
        if i = TidyXmlPIs then .intv 1
        else if i = TidyXmlOut then .intv 1
        else d.value i
      else d.value i := by
  unfold adjStep7
  split <;>
    simp_all [SetOptionBool_value, TidyXmlPIs, TidyXmlOut, N_TIDY_OPTIONS]

theorem adjStep8_value (d : TidyDocImpl) (i : Nat) :
    (adjStep8 d).value i =
      if (cfgGet d TidyOutCharEncoding ≠ ASCII ∧ cfgGet d TidyOutCharEncoding ≠ UTF8 ∧
          cfgGet d TidyOutCharEncoding ≠ UTF16 ∧ cfgGet d TidyOutCharEncoding ≠ UTF16BE ∧
          cfgGet d TidyOutCharEncoding ≠ UTF16LE ∧ cfgGet d TidyOutCharEncoding ≠ RAW ∧
          cfgBool d TidyXmlOut) ∧ i = TidyXmlDecl then .intv 1
      else d.value i := by
  by_cases hc : cfgGet d TidyOutCharEncoding ≠ ASCII ∧ cfgGet d TidyOutCharEncoding ≠ UTF8 ∧
      cfgGet d TidyOutCharEncoding ≠ UTF16 ∧ cfgGet d TidyOutCharEncoding ≠ UTF16BE ∧
      cfgGet d TidyOutCharEncoding ≠ UTF16LE ∧ cfgGet d TidyOutCharEncoding ≠ RAW ∧
      cfgBool d TidyXmlOut
  · simp [adjStep8, hc, SetOptionBool, Function.update_apply, N_TIDY_OPTIONS, TidyXmlDecl]
  · simp [adjStep8, hc]

theorem adjStep9_value (d : TidyDocImpl) (i : Nat) :
    (adjStep9 d).value i =
      if cfgBool d TidyXmlOut then
        if i = TidyOmitOptionalTags then .intv 0
        else if i = TidyQuoteAmpersand then .intv 1
        else if (cfgGet d TidyOutCharEncoding = UTF16LE ∨
                 cfgGet d TidyOutCharEncoding = UTF16BE ∨
                 cfgGet d TidyOutCharEncoding = UTF16) ∧ i = TidyOutputBOM then .intv 1
        else d.value i
      else d.value i := by
  by_cases hx : cfgBool d TidyXmlOut
  · by_cases henc : cfgGet d TidyOutCharEncoding = UTF16LE ∨
        cfgGet d TidyOutCharEncoding = UTF16BE ∨ cfgGet d TidyOutCharEncoding = UTF16
    · simp [adjStep9, hx, henc, SetOptionInt, SetOptionBool, Function.update_apply,
        N_TIDY_OPTIONS, TidyOmitOptionalTags, TidyQuoteAmpersand, TidyOutputBOM]
    · simp [adjStep9, hx, henc, SetOptionInt, SetOptionBool, Function.update_apply,
        N_TIDY_OPTIONS, TidyOmitOptionalTags, TidyQuoteAmpersand, TidyOutputBOM]
  · simp [adjStep9, hx]

theorem adjStep1_value_ne (d : TidyDocImpl) (i : Nat) (h : i ≠ TidyEncloseBodyText) :
    (adjStep1 d).value i = d.value i := by
  simp [adjStep1_value, h]

theorem adjStep2_value_ne (d : TidyDocImpl) (i : Nat) (h : i ≠ TidyIndentSpaces) :
    (adjStep2 d).value i = d.value i := by
  simp [adjStep2_value, h]

theorem adjStep3_value_ne (d : TidyDocImpl) (i : Nat) (h : i ≠ TidyWrapLen) :
    (adjStep3 d).value i = d.value i := by
  simp [adjStep3_value, h]

theorem adjStep5_value_ne (d : TidyDocImpl) (i : Nat) (h : i ≠ TidyXhtmlOut) :
    (adjStep5 d).value i = d.value i := by
  simp [adjStep5_value, h]

theorem adjStep6_value_ne (d : TidyDocImpl) (i : Nat) (h79 : i ≠ TidyUpperCaseAttrs)
    (h80 : i ≠ TidyUpperCaseTags) (h95 : i ≠ TidyXmlOut) :
    (adjStep6 d).value i = d.value i := by
  simp [adjStep6_value, h79, h80, h95]

theorem adjStep7_value_ne (d : TidyDocImpl) (i : Nat) (h96 : i ≠ TidyXmlPIs)
    (h95 : i ≠ TidyXmlOut) :
    (adjStep7 d).value i = d.value i := by
  simp [adjStep7_value, h96, h95]

theorem adjStep8_value_ne (d : TidyDocImpl) (i : Nat) (h : i ≠ TidyXmlDecl) :
    (adjStep8 d).value i = d.value i := by
  simp [adjStep8_value, h]

theorem adjStep9_value_ne (d : TidyDocImpl) (i : Nat) (h56 : i ≠ TidyOmitOptionalTags)
    (h65 : i ≠ TidyQuoteAmpersand) (h59 : i ≠ TidyOutputBOM) :
    (adjStep9 d).value i = d.value i := by
  simp [adjStep9_value, h56, h65, h59]

/-- An index written by no rule of the pass is untouched by it. -/
theorem AdjustConfig_value_ne (d : TidyDocImpl) (i : Nat)
    (h23 : i ≠ TidyEncloseBodyText) (h38 : i ≠ TidyIndentSpaces)
    (h88 : i ≠ TidyWrapLen) (h93 : i ≠ TidyXhtmlOut)
    (h79 : i ≠ TidyUpperCaseAttrs) (h80 : i ≠ TidyUpperCaseTags)
    (h95 : i ≠ TidyXmlOut) (h96 : i ≠ TidyXmlPIs) (h94 : i ≠ TidyXmlDecl)
    (h56 : i ≠ TidyOmitOptionalTags) (h65 : i ≠ TidyQuoteAmpersand)
    (h59 : i ≠ TidyOutputBOM) :
    (AdjustConfig d).value i = d.value i := by
  simp [AdjustConfig, adjStep9_value_ne, adjStep8_value_ne, adjStep7_value_ne,
    adjStep6_value_ne, adjStep5_value_ne, adjStep4_value, adjStep3_value_ne,
    adjStep2_value_ne, adjStep1_value_ne, h23, h38, h88, h93, h79, h80, h95,
    h96, h94, h56, h65, h59]

theorem cfgGet_eq_of_value_eq {d e : TidyDocImpl} {i : Nat}
    (h : d.value i = e.value i) : cfgGet d i = cfgGet e i := by
  simp [cfgGet, h]

theorem cfgBool_eq_of_value_eq {d e : TidyDocImpl} {i : Nat}
    (h : d.value i = e.value i) : cfgBool d i = cfgBool e i := by
  simp [cfgBool, cfgGet, h]

/-- The pass never writes the rule conditions' un-written reads:
`enclose-block-text`, `indent`, `word-2000`, `input-xml`,
`output-encoding`. -/
theorem AdjustConfig_cfgGet_stable (d : TidyDocImpl) (i : Nat)
    (hi : i = TidyEncloseBlockText ∨ i = TidyIndentContent ∨ i = TidyWord2000 ∨
          i = TidyXmlTags ∨ i = TidyOutCharEncoding) :
    cfgGet (AdjustConfig d) i = cfgGet d i := by
  apply cfgGet_eq_of_value_eq
  rcases hi with h | h | h | h | h <;> subst h <;>
    exact AdjustConfig_value_ne d _ (by decide) (by decide) (by decide) (by decide)
      (by decide) (by decide) (by decide) (by decide) (by decide) (by decide)
      (by decide) (by decide)

theorem AdjustConfig_cfgBool_stable (d : TidyDocImpl) (i : Nat)
    (hi : i = TidyEncloseBlockText ∨ i = TidyIndentContent ∨ i = TidyWord2000 ∨
          i = TidyXmlTags ∨ i = TidyOutCharEncoding) :
    cfgBool (AdjustConfig d) i = cfgBool d i := by
  simp [cfgBool, AdjustConfig_cfgGet_stable d i hi]

/-- What the pass leaves in `output-xhtml`. -/
theorem AdjustConfig_value_93 (d : TidyDocImpl) :
    (AdjustConfig d).value TidyXhtmlOut =
      if cfgBool d TidyXmlTags then .intv 0 else d.value TidyXhtmlOut := by
  have h9 := adjStep9_value_ne (adjStep8 (adjStep7 (adjStep6 (adjStep5 (adjStep4
    (adjStep3 (adjStep2 (adjStep1 d)))))))) TidyXhtmlOut (by decide) (by decide) (by decide)
  have h8 := adjStep8_value_ne (adjStep7 (adjStep6 (adjStep5 (adjStep4
    (adjStep3 (adjStep2 (adjStep1 d))))))) TidyXhtmlOut (by decide)
  have h7 := adjStep7_value_ne (adjStep6 (adjStep5 (adjStep4
    (adjStep3 (adjStep2 (adjStep1 d)))))) TidyXhtmlOut (by decide) (by decide)
  have h6 := adjStep6_value_ne (adjStep5 (adjStep4
    (adjStep3 (adjStep2 (adjStep1 d))))) TidyXhtmlOut (by decide) (by decide) (by decide)
  have h5 := adjStep5_value (adjStep4 (adjStep3 (adjStep2 (adjStep1 d)))) TidyXhtmlOut
  have hread : cfgBool (adjStep4 (adjStep3 (adjStep2 (adjStep1 d)))) TidyXmlTags
      = cfgBool d TidyXmlTags := by
    apply cfgBool_eq_of_value_eq
    rw [adjStep4_value, adjStep3_value_ne _ _ (by decide),
      adjStep2_value_ne _ _ (by decide), adjStep1_value_ne _ _ (by decide)]
  have hv : (adjStep4 (adjStep3 (adjStep2 (adjStep1 d)))).value TidyXhtmlOut
      = d.value TidyXhtmlOut := by
    rw [adjStep4_value, adjStep3_value_ne _ _ (by decide),
      adjStep2_value_ne _ _ (by decide), adjStep1_value_ne _ _ (by decide)]
  rw [AdjustConfig, h9, h8, h7, h6, h5, hread, hv]
  simp

theorem cfgBool_adjStep1_ne (d : TidyDocImpl) (j : Nat) (h : j ≠ TidyEncloseBodyText) :
    cfgBool (adjStep1 d) j = cfgBool d j :=
  cfgBool_eq_of_value_eq (adjStep1_value_ne d j h)

theorem cfgBool_adjStep2_ne (d : TidyDocImpl) (j : Nat) (h : j ≠ TidyIndentSpaces) :
    cfgBool (adjStep2 d) j = cfgBool d j :=
  cfgBool_eq_of_value_eq (adjStep2_value_ne d j h)

theorem cfgBool_adjStep3_ne (d : TidyDocImpl) (j : Nat) (h : j ≠ TidyWrapLen) :
    cfgBool (adjStep3 d) j = cfgBool d j :=
  cfgBool_eq_of_value_eq (adjStep3_value_ne d j h)

theorem cfgBool_adjStep4 (d : TidyDocImpl) (j : Nat) :
    cfgBool (adjStep4 d) j = cfgBool d j :=
  cfgBool_eq_of_value_eq (adjStep4_value d j)

theorem cfgBool_adjStep5_ne (d : TidyDocImpl) (j : Nat) (h : j ≠ TidyXhtmlOut) :
    cfgBool (adjStep5 d) j = cfgBool d j :=
  cfgBool_eq_of_value_eq (adjStep5_value_ne d j h)

theorem cfgBool_adjStep6_ne (d : TidyDocImpl) (j : Nat) (h79 : j ≠ TidyUpperCaseAttrs)
    (h80 : j ≠ TidyUpperCaseTags) (h95 : j ≠ TidyXmlOut) :
    cfgBool (adjStep6 d) j = cfgBool d j :=
  cfgBool_eq_of_value_eq (adjStep6_value_ne d j h79 h80 h95)

theorem cfgBool_adjStep7_ne (d : TidyDocImpl) (j : Nat) (h96 : j ≠ TidyXmlPIs)
    (h95 : j ≠ TidyXmlOut) :
    cfgBool (adjStep7 d) j = cfgBool d j :=
  cfgBool_eq_of_value_eq (adjStep7_value_ne d j h96 h95)

theorem cfgBool_adjStep8_ne (d : TidyDocImpl) (j : Nat) (h : j ≠ TidyXmlDecl) :
    cfgBool (adjStep8 d) j = cfgBool d j :=
  cfgBool_eq_of_value_eq (adjStep8_value_ne d j h)

theorem cfgGet_adjStep1_ne (d : TidyDocImpl) (j : Nat) (h : j ≠ TidyEncloseBodyText) :
    cfgGet (adjStep1 d) j = cfgGet d j :=
  cfgGet_eq_of_value_eq (adjStep1_value_ne d j h)

theorem cfgGet_adjStep2_ne (d : TidyDocImpl) (j : Nat) (h : j ≠ TidyIndentSpaces) :
    cfgGet (adjStep2 d) j = cfgGet d j :=
  cfgGet_eq_of_value_eq (adjStep2_value_ne d j h)

theorem cfgGet_adjStep3_ne (d : TidyDocImpl) (j : Nat) (h : j ≠ TidyWrapLen) :
    cfgGet (adjStep3 d) j = cfgGet d j :=
  cfgGet_eq_of_value_eq (adjStep3_value_ne d j h)

theorem cfgGet_adjStep4 (d : TidyDocImpl) (j : Nat) :
    cfgGet (adjStep4 d) j = cfgGet d j :=
  cfgGet_eq_of_value_eq (adjStep4_value d j)

theorem cfgGet_adjStep5_ne (d : TidyDocImpl) (j : Nat) (h : j ≠ TidyXhtmlOut) :
    cfgGet (adjStep5 d) j = cfgGet d j :=
  cfgGet_eq_of_value_eq (adjStep5_value_ne d j h)

theorem cfgGet_adjStep6_ne (d : TidyDocImpl) (j : Nat) (h79 : j ≠ TidyUpperCaseAttrs)
    (h80 : j ≠ TidyUpperCaseTags) (h95 : j ≠ TidyXmlOut) :
    cfgGet (adjStep6 d) j = cfgGet d j :=
  cfgGet_eq_of_value_eq (adjStep6_value_ne d j h79 h80 h95)

theorem cfgGet_adjStep7_ne (d : TidyDocImpl) (j : Nat) (h96 : j ≠ TidyXmlPIs)
    (h95 : j ≠ TidyXmlOut) :
    cfgGet (adjStep7 d) j = cfgGet d j :=
  cfgGet_eq_of_value_eq (adjStep7_value_ne d j h96 h95)

theorem cfgGet_adjStep8_ne (d : TidyDocImpl) (j : Nat) (h : j ≠ TidyXmlDecl) :
    cfgGet (adjStep8 d) j = cfgGet d j :=
  cfgGet_eq_of_value_eq (adjStep8_value_ne d j h)

theorem wordOf_intv (v : Nat) : wordOf (.intv v) = v := rfl

theorem wordOf_strv_none : wordOf (.strv none) = 0 := rfl

theorem wordOf_strv_some (s : String) : wordOf (.strv (some s)) = 1 := rfl

/-- Rule 5 leaves `output-xhtml` false when `input-xml` holds. -/
theorem cfgBool_adjStep5_93 (d : TidyDocImpl) :
    cfgBool (adjStep5 d) TidyXhtmlOut =
      if cfgBool d TidyXmlTags then false else cfgBool d TidyXhtmlOut := by
  simp only [cfgBool, cfgGet, adjStep5_value]
  by_cases hx : wordOf (d.value TidyXmlTags) = 0
  · simp [hx, wordOf_intv]
  · simp [hx, wordOf_intv]

/-- Rule 6 turns `output-xml` on when `output-xhtml` holds. -/
theorem cfgBool_adjStep6_95 (d : TidyDocImpl) :
    cfgBool (adjStep6 d) TidyXmlOut =
      if cfgBool d TidyXhtmlOut then true else cfgBool d TidyXmlOut := by
  simp only [cfgBool, cfgGet, adjStep6_value]
  by_cases hh : wordOf (d.value TidyXhtmlOut) = 0
  · simp [hh, wordOf_intv, TidyXmlOut, TidyUpperCaseAttrs, TidyUpperCaseTags]
  · simp [hh, wordOf_intv, TidyXmlOut, TidyUpperCaseAttrs, TidyUpperCaseTags]

/-- Rule 7 turns `output-xml` on when `input-xml` holds. -/
theorem cfgBool_adjStep7_95 (d : TidyDocImpl) :
    cfgBool (adjStep7 d) TidyXmlOut =
      if cfgBool d TidyXmlTags then true else cfgBool d TidyXmlOut := by
  simp only [cfgBool, cfgGet, adjStep7_value]
  by_cases hx : wordOf (d.value TidyXmlTags) = 0
  · simp [hx, wordOf_intv, TidyXmlOut, TidyXmlPIs]
  · simp [hx, wordOf_intv, TidyXmlOut, TidyXmlPIs]

/-- What the pass leaves in `enclose-text`. -/
theorem AdjustConfig_value_23 (d : TidyDocImpl) :
    (AdjustConfig d).value TidyEncloseBodyText =
      if cfgBool d TidyEncloseBlockText then .intv 1
      else d.value TidyEncloseBodyText := by
  rw [AdjustConfig,
    adjStep9_value_ne _ _ (by decide) (by decide) (by decide),
    adjStep8_value_ne _ _ (by decide),
    adjStep7_value_ne _ _ (by decide) (by decide),
    adjStep6_value_ne _ _ (by decide) (by decide) (by decide),
    adjStep5_value_ne _ _ (by decide),
    adjStep4_value,
    adjStep3_value_ne _ _ (by decide),
    adjStep2_value_ne _ _ (by decide),
    adjStep1_value]
  simp

/-- What the pass leaves in `indent-spaces`. -/
theorem AdjustConfig_value_38 (d : TidyDocImpl) :
    (AdjustConfig d).value TidyIndentSpaces =
      if cfgAutoBool d TidyIndentContent = 0 then .intv 0
      else d.value TidyIndentSpaces := by
  rw [AdjustConfig,
    adjStep9_value_ne _ _ (by decide) (by decide) (by decide),
    adjStep8_value_ne _ _ (by decide),
    adjStep7_value_ne _ _ (by decide) (by decide),
    adjStep6_value_ne _ _ (by decide) (by decide) (by decide),
    adjStep5_value_ne _ _ (by decide),
    adjStep4_value,
    adjStep3_value_ne _ _ (by decide),
    adjStep2_value,
    show cfgAutoBool (adjStep1 d) TidyIndentContent = cfgAutoBool d TidyIndentContent from
      cfgGet_eq_of_value_eq (adjStep1_value_ne d _ (by decide)),
    adjStep1_value_ne _ _ (by decide)]
  simp

/-- What the pass leaves in `wrap`. -/
theorem AdjustConfig_value_88 (d : TidyDocImpl) :
    (AdjustConfig d).value TidyWrapLen =
      if cfgGet d TidyWrapLen = 0 then .intv 0x7FFFFFFF
      else d.value TidyWrapLen := by
  rw [AdjustConfig,
    adjStep9_value_ne _ _ (by decide) (by decide) (by decide),
    adjStep8_value_ne _ _ (by decide),
    adjStep7_value_ne _ _ (by decide) (by decide),
    adjStep6_value_ne _ _ (by decide) (by decide) (by decide),
    adjStep5_value_ne _ _ (by decide),
    adjStep4_value,
    adjStep3_value,
    cfgGet_adjStep2_ne _ _ (by decide),
    cfgGet_adjStep1_ne _ _ (by decide),
    adjStep2_value_ne _ _ (by decide),
    adjStep1_value_ne _ _ (by decide)]
  simp

/-- What the pass leaves in `assume-xml-procins`. -/
theorem AdjustConfig_value_96 (d : TidyDocImpl) :
    (AdjustConfig d).value TidyXmlPIs =
      if cfgBool d TidyXmlTags then .intv 1 else d.value TidyXmlPIs := by
  rw [AdjustConfig,
    adjStep9_value_ne _ _ (by decide) (by decide) (by decide),
    adjStep8_value_ne _ _ (by decide),
    adjStep7_value,
    cfgBool_adjStep6_ne _ _ (by decide) (by decide) (by decide),
    cfgBool_adjStep5_ne _ _ (by decide),
    cfgBool_adjStep4,
    cfgBool_adjStep3_ne _ _ (by decide),
    cfgBool_adjStep2_ne _ _ (by decide),
    cfgBool_adjStep1_ne _ _ (by decide),
    adjStep6_value_ne _ _ (by decide) (by decide) (by decide),
    adjStep5_value_ne _ _ (by decide),
    adjStep4_value,
    adjStep3_value_ne _ _ (by decide),
    adjStep2_value_ne _ _ (by decide),
    adjStep1_value_ne _ _ (by decide)]
  simp [TidyXmlPIs, TidyXmlOut]

/-- What the pass leaves in `output-xml`. -/
theorem AdjustConfig_value_95 (d : TidyDocImpl) :
    (AdjustConfig d).value TidyXmlOut =
      if cfgBool d TidyXmlTags then .intv 1
      else if cfgBool d TidyXhtmlOut then .intv 1
      else d.value TidyXmlOut := by
  rw [AdjustConfig,
    adjStep9_value_ne _ _ (by decide) (by decide) (by decide),
    adjStep8_value_ne _ _ (by decide),
    adjStep7_value,
    cfgBool_adjStep6_ne _ _ (by decide) (by decide) (by decide),
    cfgBool_adjStep5_ne _ _ (by decide),
    cfgBool_adjStep4,
    cfgBool_adjStep3_ne _ _ (by decide),
    cfgBool_adjStep2_ne _ _ (by decide),
    cfgBool_adjStep1_ne _ _ (by decide),
    adjStep6_value,
    cfgBool_adjStep5_93,
    cfgBool_adjStep4,
    cfgBool_adjStep3_ne _ _ (by decide),
    cfgBool_adjStep2_ne _ _ (by decide),
    cfgBool_adjStep1_ne _ _ (by decide),
    cfgBool_adjStep4,
    cfgBool_adjStep3_ne _ _ (by decide),
    cfgBool_adjStep2_ne _ _ (by decide),
    cfgBool_adjStep1_ne _ _ (by decide),
    adjStep5_value_ne _ _ (by decide),
    adjStep4_value,
    adjStep3_value_ne _ _ (by decide),
    adjStep2_value_ne _ _ (by decide),
    adjStep1_value_ne _ _ (by decide)]
  by_cases hx : cfgBool d TidyXmlTags <;>
    by_cases hh : cfgBool d TidyXhtmlOut <;>
      simp [hx, hh, TidyXmlOut, TidyXmlPIs, TidyUpperCaseAttrs, TidyUpperCaseTags]

/-- What the pass leaves in `uppercase-tags`. -/
theorem AdjustConfig_value_80 (d : TidyDocImpl) :
    (AdjustConfig d).value TidyUpperCaseTags =
      if cfgBool d TidyXmlTags then d.value TidyUpperCaseTags
      else if cfgBool d TidyXhtmlOut then .intv 0
      else d.value TidyUpperCaseTags := by
  rw [AdjustConfig,
    adjStep9_value_ne _ _ (by decide) (by decide) (by decide),
    adjStep8_value_ne _ _ (by decide),
    adjStep7_value_ne _ _ (by decide) (by decide),
    adjStep6_value,
    cfgBool_adjStep5_93,
    cfgBool_adjStep4,
    cfgBool_adjStep3_ne _ _ (by decide),
    cfgBool_adjStep2_ne _ _ (by decide),
    cfgBool_adjStep1_ne _ _ (by decide),
    cfgBool_adjStep4,
    cfgBool_adjStep3_ne _ _ (by decide),
    cfgBool_adjStep2_ne _ _ (by decide),
    cfgBool_adjStep1_ne _ _ (by decide),
    adjStep5_value_ne _ _ (by decide),
    adjStep4_value,
    adjStep3_value_ne _ _ (by decide),
    adjStep2_value_ne _ _ (by decide),
    adjStep1_value_ne _ _ (by decide)]
  by_cases hx : cfgBool d TidyXmlTags <;>
    by_cases hh : cfgBool d TidyXhtmlOut <;>
      simp [hx, hh, TidyUpperCaseTags, TidyUpperCaseAttrs, TidyXmlOut]

/-- What the pass leaves in `uppercase-attributes`. -/
theorem AdjustConfig_value_79 (d : TidyDocImpl) :
    (AdjustConfig d).value TidyUpperCaseAttrs =
      if cfgBool d TidyXmlTags then d.value TidyUpperCaseAttrs
      else if cfgBool d TidyXhtmlOut then .intv 0
      else d.value TidyUpperCaseAttrs := by
  rw [AdjustConfig,
    adjStep9_value_ne _ _ (by decide) (by decide) (by decide),
    adjStep8_value_ne _ _ (by decide),
    adjStep7_value_ne _ _ (by decide) (by decide),
    adjStep6_value,
    cfgBool_adjStep5_93,
    cfgBool_adjStep4,
    cfgBool_adjStep3_ne _ _ (by decide),
    cfgBool_adjStep2_ne _ _ (by decide),
    cfgBool_adjStep1_ne _ _ (by decide),
    cfgBool_adjStep4,
    cfgBool_adjStep3_ne _ _ (by decide),
    cfgBool_adjStep2_ne _ _ (by decide),
    cfgBool_adjStep1_ne _ _ (by decide),
    adjStep5_value_ne _ _ (by decide),
    adjStep4_value,
    adjStep3_value_ne _ _ (by decide),
    adjStep2_value_ne _ _ (by decide),
    adjStep1_value_ne _ _ (by decide)]
  by_cases hx : cfgBool d TidyXmlTags <;>
    by_cases hh : cfgBool d TidyXhtmlOut <;>
      simp [hx, hh, TidyUpperCaseTags, TidyUpperCaseAttrs, TidyXmlOut]

/-- The condition-normal form of `output-xml` after rules 5–7: XML input,
XHTML output, or an already-set XML output flag. -/
theorem cfgBool_after7_95 (d : TidyDocImpl) :
    cfgBool (adjStep7 (adjStep6 (adjStep5 (adjStep4 (adjStep3 (adjStep2
      (adjStep1 d))))))) TidyXmlOut =
      (cfgBool d TidyXmlTags || cfgBool d TidyXhtmlOut || cfgBool d TidyXmlOut) := by
  rw [cfgBool_adjStep7_95,
    cfgBool_adjStep6_ne _ _ (by decide) (by decide) (by decide),
    cfgBool_adjStep5_ne _ _ (by decide),
    cfgBool_adjStep4,
    cfgBool_adjStep3_ne _ _ (by decide),
    cfgBool_adjStep2_ne _ _ (by decide),
    cfgBool_adjStep1_ne _ _ (by decide),
    cfgBool_adjStep6_95,
    cfgBool_adjStep5_93,
    cfgBool_adjStep4,
    cfgBool_adjStep3_ne _ _ (by decide),
    cfgBool_adjStep2_ne _ _ (by decide),
    cfgBool_adjStep1_ne _ _ (by decide),
    cfgBool_adjStep4,
    cfgBool_adjStep3_ne _ _ (by decide),
    cfgBool_adjStep2_ne _ _ (by decide),
    cfgBool_adjStep1_ne _ _ (by decide),
    cfgBool_adjStep5_ne _ _ (by decide),
    cfgBool_adjStep4,
    cfgBool_adjStep3_ne _ _ (by decide),
    cfgBool_adjStep2_ne _ _ (by decide),
    cfgBool_adjStep1_ne _ _ (by decide)]
  by_cases hx : cfgBool d TidyXmlTags <;>
    by_cases hh : cfgBool d TidyXhtmlOut <;> simp [hx, hh]

theorem cfgGet_after7_57 (d : TidyDocImpl) :
    cfgGet (adjStep7 (adjStep6 (adjStep5 (adjStep4 (adjStep3 (adjStep2
      (adjStep1 d))))))) TidyOutCharEncoding = cfgGet d TidyOutCharEncoding := by
  rw [cfgGet_adjStep7_ne _ _ (by decide) (by decide),
    cfgGet_adjStep6_ne _ _ (by decide) (by decide) (by decide),
    cfgGet_adjStep5_ne _ _ (by decide),
    cfgGet_adjStep4,
    cfgGet_adjStep3_ne _ _ (by decide),
    cfgGet_adjStep2_ne _ _ (by decide),
    cfgGet_adjStep1_ne _ _ (by decide)]

/-- What the pass leaves in `add-xml-decl`. -/
theorem AdjustConfig_value_94 (d : TidyDocImpl) :
    (AdjustConfig d).value TidyXmlDecl =
      if (cfgGet d TidyOutCharEncoding ≠ ASCII ∧ cfgGet d TidyOutCharEncoding ≠ UTF8 ∧
          cfgGet d TidyOutCharEncoding ≠ UTF16 ∧ cfgGet d TidyOutCharEncoding ≠ UTF16BE ∧
          cfgGet d TidyOutCharEncoding ≠ UTF16LE ∧ cfgGet d TidyOutCharEncoding ≠ RAW ∧
          (cfgBool d TidyXmlTags || cfgBool d TidyXhtmlOut || cfgBool d TidyXmlOut))
      then .intv 1 else d.value TidyXmlDecl := by
  rw [AdjustConfig,
    adjStep9_value_ne _ _ (by decide) (by decide) (by decide),
    adjStep8_value,
    cfgGet_after7_57, cfgBool_after7_95,
    adjStep7_value_ne _ _ (by decide) (by decide),
    adjStep6_value_ne _ _ (by decide) (by decide) (by decide),
    adjStep5_value_ne _ _ (by decide),
    adjStep4_value,
    adjStep3_value_ne _ _ (by decide),
    adjStep2_value_ne _ _ (by decide),
    adjStep1_value_ne _ _ (by decide)]
  simp

theorem cfgBool_after8_95 (d : TidyDocImpl) :
    cfgBool (adjStep8 (adjStep7 (adjStep6 (adjStep5 (adjStep4 (adjStep3 (adjStep2
      (adjStep1 d)))))))) TidyXmlOut =
      (cfgBool d TidyXmlTags || cfgBool d TidyXhtmlOut || cfgBool d TidyXmlOut) := by
  rw [cfgBool_adjStep8_ne _ _ (by decide), cfgBool_after7_95]

theorem cfgGet_after8_57 (d : TidyDocImpl) :
    cfgGet (adjStep8 (adjStep7 (adjStep6 (adjStep5 (adjStep4 (adjStep3 (adjStep2
      (adjStep1 d)))))))) TidyOutCharEncoding = cfgGet d TidyOutCharEncoding := by
  rw [cfgGet_adjStep8_ne _ _ (by decide), cfgGet_after7_57]

/-- What the pass leaves in `output-bom`. -/
theorem AdjustConfig_value_59 (d : TidyDocImpl) :
    (AdjustConfig d).value TidyOutputBOM =
      if (cfgBool d TidyXmlTags || cfgBool d TidyXhtmlOut || cfgBool d TidyXmlOut) ∧
         (cfgGet d TidyOutCharEncoding = UTF16LE ∨ cfgGet d TidyOutCharEncoding = UTF16BE ∨
          cfgGet d TidyOutCharEncoding = UTF16)
      then .intv 1 else d.value TidyOutputBOM := by
  rw [AdjustConfig,
    adjStep9_value,
    cfgBool_after8_95, cfgGet_after8_57,
    adjStep8_value_ne _ _ (by decide),
    adjStep7_value_ne _ _ (by decide) (by decide),
    adjStep6_value_ne _ _ (by decide) (by decide) (by decide),
    adjStep5_value_ne _ _ (by decide),
    adjStep4_value,
    adjStep3_value_ne _ _ (by decide),
    adjStep2_value_ne _ _ (by decide),
    adjStep1_value_ne _ _ (by decide)]
  by_cases hxo : (cfgBool d TidyXmlTags || cfgBool d TidyXhtmlOut || cfgBool d TidyXmlOut) = true <;>
    simp [hxo, TidyOutputBOM, TidyOmitOptionalTags, TidyQuoteAmpersand]

/-- What the pass leaves in `quote-ampersand`. -/
theorem AdjustConfig_value_65 (d : TidyDocImpl) :
    (AdjustConfig d).value TidyQuoteAmpersand =
      if (cfgBool d TidyXmlTags || cfgBool d TidyXhtmlOut || cfgBool d TidyXmlOut)
      then .intv 1 else d.value TidyQuoteAmpersand := by
  rw [AdjustConfig,
    adjStep9_value,
    cfgBool_after8_95,
    adjStep8_value_ne _ _ (by decide),
    adjStep7_value_ne _ _ (by decide) (by decide),
    adjStep6_value_ne _ _ (by decide) (by decide) (by decide),
    adjStep5_value_ne _ _ (by decide),
    adjStep4_value,
    adjStep3_value_ne _ _ (by decide),
    adjStep2_value_ne _ _ (by decide),
    adjStep1_value_ne _ _ (by decide)]
  by_cases hxo : (cfgBool d TidyXmlTags || cfgBool d TidyXhtmlOut || cfgBool d TidyXmlOut) = true <;>
    simp [hxo, TidyOutputBOM, TidyOmitOptionalTags, TidyQuoteAmpersand]

/-- What the pass leaves in `omit-optional-tags`. -/
theorem AdjustConfig_value_56 (d : TidyDocImpl) :
    (AdjustConfig d).value TidyOmitOptionalTags =
      if (cfgBool d TidyXmlTags || cfgBool d TidyXhtmlOut || cfgBool d TidyXmlOut)
      then .intv 0 else d.value TidyOmitOptionalTags := by
  rw [AdjustConfig,
    adjStep9_value,
    cfgBool_after8_95,
    adjStep8_value_ne _ _ (by decide),
    adjStep7_value_ne _ _ (by decide) (by decide),
    adjStep6_value_ne _ _ (by decide) (by decide) (by decide),
    adjStep5_value_ne _ _ (by decide),
    adjStep4_value,
    adjStep3_value_ne _ _ (by decide),
    adjStep2_value_ne _ _ (by decide),
    adjStep1_value_ne _ _ (by decide)]
  by_cases hxo : (cfgBool d TidyXmlTags || cfgBool d TidyXhtmlOut || cfgBool d TidyXmlOut) = true <;>
    simp [hxo, TidyOutputBOM, TidyOmitOptionalTags, TidyQuoteAmpersand]

theorem AdjustConfig_cfgGet_88 (d : TidyDocImpl) :
    cfgGet (AdjustConfig d) TidyWrapLen =
      if cfgGet d TidyWrapLen = 0 then 0x7FFFFFFF else cfgGet d TidyWrapLen := by
  simp only [cfgGet, AdjustConfig_value_88]
  by_cases h : wordOf (d.value TidyWrapLen) = 0
  · simp [h, wordOf_intv]
  · simp [h, wordOf_intv]

theorem AdjustConfig_cfgBool_93 (d : TidyDocImpl) :
    cfgBool (AdjustConfig d) TidyXhtmlOut =
      if cfgBool d TidyXmlTags then false else cfgBool d TidyXhtmlOut := by
  simp only [cfgBool, cfgGet, AdjustConfig_value_93]
  by_cases hx : wordOf (d.value TidyXmlTags) = 0
  · simp [hx, wordOf_intv]
  · simp [hx, wordOf_intv]

theorem AdjustConfig_cfgBool_95 (d : TidyDocImpl) :
    cfgBool (AdjustConfig d) TidyXmlOut =
      (cfgBool d TidyXmlTags || cfgBool d TidyXhtmlOut || cfgBool d TidyXmlOut) := by
  simp only [cfgBool, cfgGet, AdjustConfig_value_95]
  by_cases hx : wordOf (d.value TidyXmlTags) = 0 <;>
    by_cases hh : wordOf (d.value TidyXhtmlOut) = 0 <;>
      simp [hx, hh, wordOf_intv]

theorem adjIdem23 (d : TidyDocImpl) :
    (AdjustConfig (AdjustConfig d)).value TidyEncloseBodyText =
      (AdjustConfig d).value TidyEncloseBodyText := by
  rw [AdjustConfig_value_23,
    AdjustConfig_cfgBool_stable d TidyEncloseBlockText (by left; rfl)]
  by_cases h : cfgBool d TidyEncloseBlockText <;> simp [h, AdjustConfig_value_23]

theorem adjIdem38 (d : TidyDocImpl) :
    (AdjustConfig (AdjustConfig d)).value TidyIndentSpaces =
      (AdjustConfig d).value TidyIndentSpaces := by
  rw [AdjustConfig_value_38]
  have hst : cfgAutoBool (AdjustConfig d) TidyIndentContent
      = cfgAutoBool d TidyIndentContent :=
    AdjustConfig_cfgGet_stable d TidyIndentContent (by right; left; rfl)
  rw [hst]
  by_cases h : cfgAutoBool d TidyIndentContent = 0 <;> simp [h, AdjustConfig_value_38]

theorem adjIdem88 (d : TidyDocImpl) :
    (AdjustConfig (AdjustConfig d)).value TidyWrapLen =
      (AdjustConfig d).value TidyWrapLen := by
  rw [AdjustConfig_value_88, AdjustConfig_cfgGet_88]
  by_cases h : cfgGet d TidyWrapLen = 0 <;> simp [h]

theorem adjIdem93 (d : TidyDocImpl) :
    (AdjustConfig (AdjustConfig d)).value TidyXhtmlOut =
      (AdjustConfig d).value TidyXhtmlOut := by
  rw [AdjustConfig_value_93,
    AdjustConfig_cfgBool_stable d TidyXmlTags (by right; right; right; left; rfl)]
  by_cases hx : cfgBool d TidyXmlTags <;> simp [hx, AdjustConfig_value_93]

theorem adjIdem95 (d : TidyDocImpl) :
    (AdjustConfig (AdjustConfig d)).value TidyXmlOut =
      (AdjustConfig d).value TidyXmlOut := by
  rw [AdjustConfig_value_95,
    AdjustConfig_cfgBool_stable d TidyXmlTags (by right; right; right; left; rfl),
    AdjustConfig_cfgBool_93]
  by_cases hx : cfgBool d TidyXmlTags <;> by_cases hh : cfgBool d TidyXhtmlOut <;>
    simp [hx, hh, AdjustConfig_value_95]

theorem adjIdem80 (d : TidyDocImpl) :
    (AdjustConfig (AdjustConfig d)).value TidyUpperCaseTags =
      (AdjustConfig d).value TidyUpperCaseTags := by
  rw [AdjustConfig_value_80,
    AdjustConfig_cfgBool_stable d TidyXmlTags (by right; right; right; left; rfl),
    AdjustConfig_cfgBool_93]
  by_cases hx : cfgBool d TidyXmlTags <;> by_cases hh : cfgBool d TidyXhtmlOut <;>
    simp [hx, hh, AdjustConfig_value_80]

theorem adjIdem79 (d : TidyDocImpl) :
    (AdjustConfig (AdjustConfig d)).value TidyUpperCaseAttrs =
      (AdjustConfig d).value TidyUpperCaseAttrs := by
  rw [AdjustConfig_value_79,
    AdjustConfig_cfgBool_stable d TidyXmlTags (by right; right; right; left; rfl),
    AdjustConfig_cfgBool_93]
  by_cases hx : cfgBool d TidyXmlTags <;> by_cases hh : cfgBool d TidyXhtmlOut <;>
    simp [hx, hh, AdjustConfig_value_79]

theorem adjIdem96 (d : TidyDocImpl) :
    (AdjustConfig (AdjustConfig d)).value TidyXmlPIs =
      (AdjustConfig d).value TidyXmlPIs := by
  rw [AdjustConfig_value_96,
    AdjustConfig_cfgBool_stable d TidyXmlTags (by right; right; right; left; rfl)]
  by_cases hx : cfgBool d TidyXmlTags <;> simp [hx, AdjustConfig_value_96]

theorem adjIdem94 (d : TidyDocImpl) :
    (AdjustConfig (AdjustConfig d)).value TidyXmlDecl =
      (AdjustConfig d).value TidyXmlDecl := by
  rw [AdjustConfig_value_94,
    AdjustConfig_cfgGet_stable d TidyOutCharEncoding (by right; right; right; right; rfl),
    AdjustConfig_cfgBool_stable d TidyXmlTags (by right; right; right; left; rfl),
    AdjustConfig_cfgBool_93, AdjustConfig_cfgBool_95]
  by_cases hx : cfgBool d TidyXmlTags <;> by_cases hh : cfgBool d TidyXhtmlOut <;>
    by_cases ho : cfgBool d TidyXmlOut <;>
      by_cases henc : cfgGet d TidyOutCharEncoding ≠ ASCII ∧
        cfgGet d TidyOutCharEncoding ≠ UTF8 ∧ cfgGet d TidyOutCharEncoding ≠ UTF16 ∧
        cfgGet d TidyOutCharEncoding ≠ UTF16BE ∧ cfgGet d TidyOutCharEncoding ≠ UTF16LE ∧
        cfgGet d TidyOutCharEncoding ≠ RAW <;>
      simp_all [AdjustConfig_value_94]

theorem adjIdem59 (d : TidyDocImpl) :
    (AdjustConfig (AdjustConfig d)).value TidyOutputBOM =
      (AdjustConfig d).value TidyOutputBOM := by
  rw [AdjustConfig_value_59,
    AdjustConfig_cfgGet_stable d TidyOutCharEncoding (by right; right; right; right; rfl),
    AdjustConfig_cfgBool_stable d TidyXmlTags (by right; right; right; left; rfl),
    AdjustConfig_cfgBool_93, AdjustConfig_cfgBool_95]
  by_cases hx : cfgBool d TidyXmlTags <;> by_cases hh : cfgBool d TidyXhtmlOut <;>
    by_cases ho : cfgBool d TidyXmlOut <;>
      by_cases henc : cfgGet d TidyOutCharEncoding = UTF16LE ∨
        cfgGet d TidyOutCharEncoding = UTF16BE ∨ cfgGet d TidyOutCharEncoding = UTF16 <;>
      simp_all [AdjustConfig_value_59]

theorem adjIdem65 (d : TidyDocImpl) :
    (AdjustConfig (AdjustConfig d)).value TidyQuoteAmpersand =
      (AdjustConfig d).value TidyQuoteAmpersand := by
  rw [AdjustConfig_value_65,
    AdjustConfig_cfgBool_stable d TidyXmlTags (by right; right; right; left; rfl),
    AdjustConfig_cfgBool_93, AdjustConfig_cfgBool_95]
  by_cases hx : cfgBool d TidyXmlTags <;> by_cases hh : cfgBool d TidyXhtmlOut <;>
    by_cases ho : cfgBool d TidyXmlOut <;> simp_all [AdjustConfig_value_65]

theorem adjIdem56 (d : TidyDocImpl) :
    (AdjustConfig (AdjustConfig d)).value TidyOmitOptionalTags =
      (AdjustConfig d).value TidyOmitOptionalTags := by
  rw [AdjustConfig_value_56,
    AdjustConfig_cfgBool_stable d TidyXmlTags (by right; right; right; left; rfl),
    AdjustConfig_cfgBool_93, AdjustConfig_cfgBool_95]
  by_cases hx : cfgBool d TidyXmlTags <;> by_cases hh : cfgBool d TidyXhtmlOut <;>
    by_cases ho : cfgBool d TidyXmlOut <;> simp_all [AdjustConfig_value_56]

/-- Claim C4: the consistency pass `AdjustConfig` is idempotent — for every
configuration state, applying it twice yields the same option values as
applying it once. -/
theorem claim_c4_AdjustConfig_idempotent (d : TidyDocImpl) (i : Nat) :
    (AdjustConfig (AdjustConfig d)).value i = (AdjustConfig d).value i := by
  by_cases h23 : i = TidyEncloseBodyText
  · exact h23 ▸ adjIdem23 d
  by_cases h38 : i = TidyIndentSpaces
  · exact h38 ▸ adjIdem38 d
  by_cases h88 : i = TidyWrapLen
  · exact h88 ▸ adjIdem88 d
  by_cases h93 : i = TidyXhtmlOut
  · exact h93 ▸ adjIdem93 d
  by_cases h79 : i = TidyUpperCaseAttrs
  · exact h79 ▸ adjIdem79 d
  by_cases h80 : i = TidyUpperCaseTags
  · exact h80 ▸ adjIdem80 d
  by_cases h95 : i = TidyXmlOut
  · exact h95 ▸ adjIdem95 d
  by_cases h96 : i = TidyXmlPIs
  · exact h96 ▸ adjIdem96 d
  by_cases h94 : i = TidyXmlDecl
  · exact h94 ▸ adjIdem94 d
  by_cases h56 : i = TidyOmitOptionalTags
  · exact h56 ▸ adjIdem56 d
  by_cases h65 : i = TidyQuoteAmpersand
  · exact h65 ▸ adjIdem65 d
  by_cases h59 : i = TidyOutputBOM
  · exact h59 ▸ adjIdem59 d
  exact AdjustConfig_value_ne (AdjustConfig d) i h23 h38 h88 h93 h79 h80 h95 h96
    h94 h56 h65 h59

/-- Claim C5: after the consistency pass, XML input implies XHTML output
off, XML output on and XML procins assumed; and XHTML output implies XML
output on and lower-cased tags and attributes. -/
theorem claim_c5_AdjustConfig_xml_implications (d : TidyDocImpl) :
    (cfgBool (AdjustConfig d) TidyXmlTags = true →
       cfgBool (AdjustConfig d) TidyXhtmlOut = false ∧
       cfgBool (AdjustConfig d) TidyXmlOut = true ∧
       cfgBool (AdjustConfig d) TidyXmlPIs = true) ∧
    (cfgBool (AdjustConfig d) TidyXhtmlOut = true →
       cfgBool (AdjustConfig d) TidyXmlOut = true ∧
       cfgGet (AdjustConfig d) TidyUpperCaseTags = 0 ∧
       cfgGet (AdjustConfig d) TidyUpperCaseAttrs = 0) := by
  have hstx := AdjustConfig_cfgBool_stable d TidyXmlTags (by right; right; right; left; rfl)
  constructor
  · intro hx
    rw [hstx] at hx
    have hx' : ¬ wordOf (d.value TidyXmlTags) = 0 := by
      simpa [cfgBool, cfgGet] using hx
    refine ⟨?_, ?_, ?_⟩
    · rw [AdjustConfig_cfgBool_93, hx]; simp
    · rw [AdjustConfig_cfgBool_95, hx]; simp
    · simp [cfgBool, cfgGet, AdjustConfig_value_96, hx, hx', wordOf_intv]
  · intro hh
    rw [AdjustConfig_cfgBool_93] at hh
    by_cases hx : cfgBool d TidyXmlTags
    · rw [if_pos hx] at hh; exact absurd hh (by simp)
    · rw [if_neg hx] at hh
      have hxf : cfgBool d TidyXmlTags = false := by
        revert hx; cases cfgBool d TidyXmlTags <;> simp
      refine ⟨?_, ?_, ?_⟩
      · rw [AdjustConfig_cfgBool_95, hxf, hh]; simp
      · simp [cfgGet, AdjustConfig_value_80, hxf, hh, wordOf_intv]
      · simp [cfgGet, AdjustConfig_value_79, hxf, hh, wordOf_intv]

/-- Witness for C5 at concrete inputs: a state with `input-xml` on, and one
with `output-xhtml` on. -/
theorem claim_c5_witness :
    (cfgBool (AdjustConfig { initDoc with
        value := Function.update initDoc.value TidyXmlTags (.intv 1) }) TidyXhtmlOut = false ∧
     cfgBool (AdjustConfig { initDoc with
        value := Function.update initDoc.value TidyXmlTags (.intv 1) }) TidyXmlOut = true ∧
     cfgBool (AdjustConfig { initDoc with
        value := Function.update initDoc.value TidyXmlTags (.intv 1) }) TidyXmlPIs = true) ∧
    (cfgBool (AdjustConfig { initDoc with
        value := Function.update initDoc.value TidyXhtmlOut (.intv 1) }) TidyXmlOut = true ∧
     cfgGet (AdjustConfig { initDoc with
        value := Function.update initDoc.value TidyXhtmlOut (.intv 1) }) TidyUpperCaseTags = 0 ∧
     cfgGet (AdjustConfig { initDoc with
        value := Function.update initDoc.value TidyXhtmlOut (.intv 1) }) TidyUpperCaseAttrs = 0) :=
  ⟨(claim_c5_AdjustConfig_xml_implications _).1 (by decide),
   (claim_c5_AdjustConfig_xml_implications _).2 (by decide)⟩

/-- Claim C6: after the pass, a zero wrap width reads back as the maximum
representable width `0x7FFFFFFF` (= 2^31 - 1, the largest positive value of
a 32-bit int), and a non-zero wrap width is left unchanged. -/
theorem claim_c6_wrap_zero_becomes_max (d : TidyDocImpl) :
    (cfgGet d TidyWrapLen = 0 →
       cfgGet (AdjustConfig d) TidyWrapLen = 0x7FFFFFFF) ∧
    (cfgGet d TidyWrapLen ≠ 0 →
       (AdjustConfig d).value TidyWrapLen = d.value TidyWrapLen) := by
  constructor
  · intro h; rw [AdjustConfig_cfgGet_88, if_pos h]
  · intro h; rw [AdjustConfig_value_88, if_neg h]

/-- Witness for C6 at concrete inputs: wrap 0 and wrap 68. -/
theorem claim_c6_witness :
    cfgGet (AdjustConfig { initDoc with
      value := Function.update initDoc.value TidyWrapLen (.intv 0) }) TidyWrapLen
      = 0x7FFFFFFF ∧
    (AdjustConfig initDoc).value TidyWrapLen = initDoc.value TidyWrapLen :=
  ⟨(claim_c6_wrap_zero_becomes_max _).1 (by decide),
   (claim_c6_wrap_zero_becomes_max initDoc).2 (by decide)⟩

/-- Claim C2 (the code contradicts it): resetting to defaults and then
asking `ConfigDiffThanDefault` reports a difference for every starting
state, because the function walks `option_defs` from index 1 while its
value cursor starts at slot 0, so row `k + 1` is checked against slot `k`
(already at slot 2 the `alt-text` NULL default fails `anchor-as-name`'s
default of yes). -/
theorem claim_c2_reset_then_diff_reports_difference (d : TidyDocImpl) :
    ConfigDiffThanDefault (ResetConfigToDefault d) = true := rfl

/-- Claim C7: parsing `mac` for the primary `char-encoding` option succeeds
and derives input = Mac-Roman, output = ASCII; parsing `mac` directly for
`input-encoding` or `output-encoding` sets only that option. -/
theorem claim_c7_mac_encoding_side_effect (d : TidyDocImpl) :
    ((ParseConfigValue d TidyCharEncoding (some "mac")).2 = true ∧
     cfgGet (ParseConfigValue d TidyCharEncoding (some "mac")).1 TidyCharEncoding
       = MACROMAN ∧
     cfgGet (ParseConfigValue d TidyCharEncoding (some "mac")).1 TidyInCharEncoding
       = MACROMAN ∧
     cfgGet (ParseConfigValue d TidyCharEncoding (some "mac")).1 TidyOutCharEncoding
       = ASCII) ∧
    ((ParseConfigValue d TidyInCharEncoding (some "mac")).2 = true ∧
     cfgGet (ParseConfigValue d TidyInCharEncoding (some "mac")).1 TidyInCharEncoding
       = MACROMAN ∧
     (ParseConfigValue d TidyInCharEncoding (some "mac")).1.value TidyCharEncoding
       = d.value TidyCharEncoding ∧
     (ParseConfigValue d TidyInCharEncoding (some "mac")).1.value TidyOutCharEncoding
       = d.value TidyOutCharEncoding) ∧
    ((ParseConfigValue d TidyOutCharEncoding (some "mac")).2 = true ∧
     cfgGet (ParseConfigValue d TidyOutCharEncoding (some "mac")).1 TidyOutCharEncoding
       = MACROMAN ∧
     (ParseConfigValue d TidyOutCharEncoding (some "mac")).1.value TidyCharEncoding
       = d.value TidyCharEncoding ∧
     (ParseConfigValue d TidyOutCharEncoding (some "mac")).1.value TidyInCharEncoding
       = d.value TidyInCharEncoding) :=
  ⟨⟨rfl, rfl, rfl, rfl⟩, ⟨rfl, rfl, rfl, rfl⟩, ⟨rfl, rfl, rfl, rfl⟩⟩

/-- Claim C3 as stated is false: at a state whose two `alt-text` slots are
owned strings with equal content but distinct storage, the spec's
structural equality holds but the `memcmp` sees the differing pointers and
reports a difference. -/
theorem claim_c3_counterexample :
    ¬ (MemConfigDiffThanSnapshot memEqualContentDistinctStorage = false ↔
       specStructEq memEqualContentDistinctStorage) := by decide

/-- Claim C3 amended: the diff-from-snapshot check reports no difference
exactly when the two arrays agree word for word — integer slots by stored
number and string slots by pointer identity; owned strings with equal
content but distinct storage therefore compare as different. -/
theorem claim_c3_amended_diff_is_word_identity (m : MemConfig) :
    MemConfigDiffThanSnapshot m = false ↔
      ∀ ix < N_TIDY_OPTIONS, m.value ix = m.snapshot ix := by
  rw [← Bool.not_eq_true, MemConfigDiffThanSnapshot, List.any_eq_true]
  constructor
  · intro h ix hix
    by_contra hne
    exact h ⟨ix, List.mem_range.mpr hix, by simpa using hne⟩
  · rintro h ⟨ix, hmem, hne⟩
    have hne2 : m.value ix ≠ m.snapshot ix := by simpa using hne
    exact hne2 (h ix (List.mem_range.mp hmem))

/-- Witness for the amended C3 at a concrete input: a state whose arrays
are word-identical is reported unchanged. -/
theorem claim_c3_amended_witness :
    MemConfigDiffThanSnapshot memAllZero = false :=
  (claim_c3_amended_diff_is_word_identity memAllZero).mpr (by decide)

theorem CopyOptionValue_id (option : TidyOptionImpl) (v : TidyOptionValue) :
    CopyOptionValue option v = v := by
  unfold CopyOptionValue
  split
  · rcases v with w | p
    · rfl
    · rcases p with _ | s <;> rfl
  · rfl

theorem OptionValueIdentical_refl (option : TidyOptionImpl) (v : TidyOptionValue) :
    OptionValueIdentical option v v = true := by
  unfold OptionValueIdentical
  split
  · rcases v with w | p
    · simp
    · rcases p with _ | s <;> simp
  · simp

theorem foldl_const_of_mem {α β : Type _} (f : α → β → α) (l : List β) (a : α)
    (h : ∀ x ∈ l, ∀ acc, f acc x = acc) : l.foldl f a = a := by
  induction l generalizing a with
  | nil => rfl
  | cons x xs ih =>
    rw [List.foldl_cons, h x (by simp)]
    exact ih a (fun y hy acc => h y (by simp [hy]) acc)

/-- When the compared slots of the four tag options are identical, no
reparse is needed and no category is marked. -/
theorem NeedReparseTagDecls_of_identical (current newv : Nat → TidyOptionValue)
    (h : ∀ ix < N_TIDY_OPTIONS,
      OptionValueIdentical (optDef ix) (current ix) (newv ix) = true) :
    NeedReparseTagDecls current newv = (false, tagtype_null) := by
  unfold NeedReparseTagDecls
  apply foldl_const_of_mem
  intro ix hmem acc
  have hix := h ix (List.mem_range.mp hmem)
  by_cases h39 : ix = TidyInlineTags
  · subst h39
    simp [TidyInlineTags] at hix
    simp [hix, TidyInlineTags]
  by_cases h5 : ix = TidyBlockTags
  · subst h5
    simp [TidyBlockTags] at hix
    simp [hix, TidyInlineTags, TidyBlockTags]
  by_cases h21 : ix = TidyEmptyTags
  · subst h21
    simp [TidyEmptyTags] at hix
    simp [hix, TidyInlineTags, TidyBlockTags, TidyEmptyTags]
  by_cases h62 : ix = TidyPreTags
  · subst h62
    simp [TidyPreTags] at hix
    simp [hix, TidyInlineTags, TidyBlockTags, TidyEmptyTags, TidyPreTags]
  simp [h39, h5, h21, h62]

/-- Claim C8: `takeSnapshot` immediately followed by `restoreSnapshot`
leaves every option's current value exactly as it was just after the
`takeSnapshot` call. -/
theorem claim_c8_snapshot_roundtrip (d : TidyDocImpl) (i : Nat) :
    (ResetConfigToSnapshot (TakeConfigSnapshot d)).value i =
      (TakeConfigSnapshot d).value i := by
  have hsnap : ∀ ix < N_TIDY_OPTIONS,
      (TakeConfigSnapshot d).snapshot ix = (TakeConfigSnapshot d).value ix := by
    intro ix hix
    simp [TakeConfigSnapshot, hix, CopyOptionValue_id]
  have hid : ∀ ix < N_TIDY_OPTIONS,
      OptionValueIdentical (optDef ix) ((TakeConfigSnapshot d).value ix)
        ((TakeConfigSnapshot d).snapshot ix) = true := by
    intro ix hix
    rw [hsnap ix hix]
    exact OptionValueIdentical_refl _ _
  have hneed := NeedReparseTagDecls_of_identical _ _ hid
  unfold ResetConfigToSnapshot
  rw [hneed]
  by_cases hi : i < N_TIDY_OPTIONS
  · simp [hi, CopyOptionValue_id, hsnap i hi]
  · simp [hi]

/-- Claim C10: the delimited-string parser never fails; it stores the
collected string, an empty collection storing the NULL/shared-default
pointer, which then compares equal to the option's default. -/
theorem claim_c10_ParseString_never_fails (d : TidyDocImpl)
    (option : TidyOptionImpl) (hid : option.id < N_TIDY_OPTIONS) :
    (ParseString d option).2 = true ∧
    (ParseString d option).1.value option.id =
      .strv (if 0 < (collectString d.stream).1.length
             then some (collectString d.stream).1 else none) ∧
    ((collectString d.stream).1.length = 0 → option.otype = .TidyString →
      OptionValueEqDefault option ((ParseString d option).1.value option.id)
        = true) := by
  unfold ParseString
  rcases hcs : collectString d.stream with ⟨buf, s⟩
  refine ⟨rfl, ?_, ?_⟩
  · simp [SetOptionValue, hid, Function.update_apply]
  · intro hlen hty
    simp only [] at hlen
    have hbuf : ¬ 0 < buf.length := by omega
    simp [SetOptionValue, hid, Function.update_apply, hbuf,
      OptionValueEqDefault, hty, wordOf_strv_none]

/-- Witness for C10 at a concrete input: `alt-text` parsed from an
exhausted input stream ends NULL and equal to its default. -/
theorem claim_c10_witness :
    (ParseString initDoc (optDef TidyAltText)).2 = true ∧
    OptionValueEqDefault (optDef TidyAltText)
      ((ParseString initDoc (optDef TidyAltText)).1.value (optDef TidyAltText).id)
      = true :=
  ⟨(claim_c10_ParseString_never_fails initDoc (optDef TidyAltText) (by decide)).1,
   (claim_c10_ParseString_never_fails initDoc (optDef TidyAltText) (by decide)).2.2
     (by decide) (by decide)⟩

/-- The tag-count of one loop body never drops, and a body that declared
nothing left the value store, report log and error counter alone. -/
theorem tagNamesWord_preserve (oid tt : Nat) (d : TidyDocImpl) (n : Nat) :
    n ≤ (tagNamesWord oid tt d n).2.1 ∧
    ((tagNamesWord oid tt d n).2.1 = n →
      (tagNamesWord oid tt d n).1.value = d.value ∧
      (tagNamesWord oid tt d n).1.reports = d.reports ∧
      (tagNamesWord oid tt d n).1.optionErrors = d.optionErrors) := by
  unfold tagNamesWord
  rcases hsw : scanTagWord (d.stream.input.length + 2) d.stream "" with ⟨buf, s⟩
  by_cases hb : buf.length = 0
  · simp [hsw, hb]
  · simp [hsw, hb]

theorem tagNamesStep_preserve (oid tt : Nat) (d : TidyDocImpl) (n : Nat) :
    n ≤ (tagNamesStep oid tt d n).2.1 ∧
    ((tagNamesStep oid tt d n).2.1 = n →
      (tagNamesStep oid tt d n).1.value = d.value ∧
      (tagNamesStep oid tt d n).1.reports = d.reports ∧
      (tagNamesStep oid tt d n).1.optionErrors = d.optionErrors) := by
  unfold tagNamesStep
  rcases hc : d.stream.c with _ | ch
  · exact tagNamesWord_preserve oid tt _ n
  · by_cases hsp : ch = ' ' ∨ ch = '\t' ∨ ch = ','
    · simp [hsp]
    · by_cases hnl : ch = '\r' ∨ ch = '\n'
      · simp only [hsp, hnl, if_false, if_true]
        rcases hc2 : (if ch = '\r' ∧ (AdvanceChar d.stream).c = some '\n'
            then AdvanceChar (AdvanceChar d.stream)
            else AdvanceChar d.stream).c with _ | c2
        · simp [hc2]
        · by_cases hw : IsWhite c2
          · simp [hc2, hw]
            exact tagNamesWord_preserve oid tt _ n
          · simp [hc2, hw]
      · simp only [hsp, hnl, if_false]
        exact tagNamesWord_preserve oid tt _ n

theorem tagNamesLoop_preserve (oid tt : Nat) (fuel : Nat) :
    ∀ (d : TidyDocImpl) (n : Nat),
      n ≤ (tagNamesLoop oid tt fuel d n).2 ∧
      ((tagNamesLoop oid tt fuel d n).2 = n →
        (tagNamesLoop oid tt fuel d n).1.value = d.value ∧
        (tagNamesLoop oid tt fuel d n).1.reports = d.reports ∧
        (tagNamesLoop oid tt fuel d n).1.optionErrors = d.optionErrors) := by
  induction fuel with
  | zero => intro d n; simp [tagNamesLoop]
  | succ fuel ih =>
    intro d n
    have hstep := tagNamesStep_preserve oid tt d n
    rcases hs : tagNamesStep oid tt d n with ⟨d1, n1, brk⟩
    rw [hs] at hstep
    simp only at hstep
    rcases brk with _ | _
    · -- continue branch
      by_cases hend : d1.stream.c = none
      · simp only [tagNamesLoop, hs, hend, if_pos rfl]
        exact hstep
      · simp only [tagNamesLoop, hs, if_neg hend]
        have hih := ih d1 n1
        constructor
        · exact le_trans hstep.1 (hih).1
        · intro heq
          have hn1 : n1 = n := by
            have := hih.1
            omega
          have hd1 := hstep.2 hn1
          have hloop := hih.2 (by omega)
          exact ⟨hloop.1.trans hd1.1, hloop.2.1.trans hd1.2.1,
            hloop.2.2.trans hd1.2.2⟩
    · -- break branch
      simp only [tagNamesLoop, hs]
      exact hstep

/-- A tag-name scan that declared nothing left the document (other than its
stream) alone. -/
theorem tagNamesLoop_zero (oid tt fuel : Nat) (dinit : TidyDocImpl)
    (hz : (tagNamesLoop oid tt fuel dinit 0).2 = 0) :
    (tagNamesLoop oid tt fuel dinit 0).1.value = dinit.value ∧
    (tagNamesLoop oid tt fuel dinit 0).1.reports = dinit.reports :=
  ⟨((tagNamesLoop_preserve oid tt fuel dinit 0).2 hz).1,
   ((tagNamesLoop_preserve oid tt fuel dinit 0).2 hz).2.1⟩

/-- Claim C1 as stated is false: the tag-name parser, fed an empty value
for `new-blocklevel-tags` while the option holds `foo`, returns failure,
yet the slot has been cleared to NULL (changed) and no condition at all was
reported. -/
theorem claim_c1_counterexample :
    (ParseTagNames docBlockFoo (optDef TidyBlockTags)).2 = false ∧
    (ParseTagNames docBlockFoo (optDef TidyBlockTags)).1.value TidyBlockTags
      ≠ docBlockFoo.value TidyBlockTags ∧
    (ParseTagNames docBlockFoo (optDef TidyBlockTags)).1.reports
      = docBlockFoo.reports := by decide

/-- Claim C1 amended: when `ParseInt` or the pick-list parser fails, the
store is unchanged and a bad-argument condition naming the option is
reported (the pick-list path reports it twice); when `ParseTagNames` fails
(zero tags declared), no condition is reported and the option's slot has
been cleared to the NULL default by the parser's own initialisation. -/
theorem claim_c1_amended_parser_failure (d : TidyDocImpl)
    (entry : TidyOptionImpl) :
    ((ParseInt d entry).2 = false →
       (∀ i, (ParseInt d entry).1.value i = d.value i) ∧
       (ParseInt d entry).1.reports = d.reports ++ [.badArgument entry.name]) ∧
    ((ParsePickList d entry).2 = false →
       (∀ i, (ParsePickList d entry).1.value i = d.value i) ∧
       (ParsePickList d entry).1.reports =
         d.reports ++ [.badArgument entry.name, .badArgument entry.name]) ∧
    ((entry.id = TidyInlineTags ∨ entry.id = TidyBlockTags ∨
      entry.id = TidyEmptyTags ∨ entry.id = TidyPreTags ∨
      entry.id = TidyCustomTags) →
     (ParseTagNames d entry).2 = false →
       (ParseTagNames d entry).1.value entry.id = .strv none ∧
       (ParseTagNames d entry).1.reports = d.reports) := by
  refine ⟨?_, ?_, ?_⟩
  · -- ParseInt
    intro hfail
    simp only [ParseInt] at hfail ⊢
    rcases hpl : parseIntLoop ((SkipWhite d.stream).input.length + 1)
        (SkipWhite d.stream) 0 false with ⟨s1, num, dig⟩
    rcases dig with _ | _
    · simp [ReportBadArgument]
    · rw [hpl] at hfail
      simp at hfail
  · -- ParsePickList
    intro hfail
    simp only [ParsePickList, GetParsePickListValue] at hfail ⊢
    rcases hpt : pickTokLoop ((SkipWhite d.stream).input.length + 2)
        (SkipWhite d.stream) "" with ⟨work, s1⟩
    rcases hpk : entry.pickList with _ | pl
    · simp [hpk]
      simp [ReportBadArgument]
    · simp only [hpk]
      rcases hlk : pickListLookup pl work with _ | ix
      · simp [hlk]
        simp [ReportBadArgument]
      · by_cases hb : entry.otype = TidyOptionType.TidyBoolean
        · simp [hpt, hpk, hlk, hb] at hfail
        · by_cases hi : entry.otype = TidyOptionType.TidyInteger
          · simp [hpt, hpk, hlk, hb, hi] at hfail
          · simp [hpt, hpk, hlk, hb, hi] at hfail
  · -- ParseTagNames
    intro hids hfail
    simp only [ParseTagNames] at hfail ⊢
    rcases hids with h | h | h | h | h <;> rw [h] at hfail ⊢ <;>
      simp only [TidyInlineTags, TidyBlockTags, TidyEmptyTags, TidyPreTags,
        TidyCustomTags, Nat.reduceEqDiff, reduceIte] at hfail ⊢
    all_goals {
      simp only [decide_eq_false_iff_not, Nat.not_lt, Nat.le_zero,
        Nat.lt_irrefl, Nat.pos_iff_ne_zero, not_not, ne_eq, Decidable.not_not] at hfail
      refine ⟨?_, ?_⟩
      · rw [(tagNamesLoop_zero _ _ _ _ hfail).1]
        simp [SetOptionValue, FreeDeclaredTags, Function.update_apply, N_TIDY_OPTIONS]
      · rw [(tagNamesLoop_zero _ _ _ _ hfail).2]
        simp [SetOptionValue, FreeDeclaredTags, N_TIDY_OPTIONS]
    }

/-- Witness for the amended C1 at concrete inputs: an integer option fed
`x`, a boolean option fed `x`, and the tag-name counterexample state. -/
theorem claim_c1_amended_witness :
    ((∀ i, (ParseInt docBadTok (optDef TidyTabSize)).1.value i
        = docBadTok.value i) ∧
     (ParseInt docBadTok (optDef TidyTabSize)).1.reports =
       docBadTok.reports ++ [.badArgument (optDef TidyTabSize).name]) ∧
    ((∀ i, (ParsePickList docBadTok (optDef TidyXmlTags)).1.value i
        = docBadTok.value i) ∧
     (ParsePickList docBadTok (optDef TidyXmlTags)).1.reports =
       docBadTok.reports ++ [.badArgument (optDef TidyXmlTags).name,
                             .badArgument (optDef TidyXmlTags).name]) ∧
    ((ParseTagNames docBlockFoo (optDef TidyBlockTags)).1.value
        (optDef TidyBlockTags).id = .strv none ∧
     (ParseTagNames docBlockFoo (optDef TidyBlockTags)).1.reports
        = docBlockFoo.reports) :=
  ⟨(claim_c1_amended_parser_failure docBadTok (optDef TidyTabSize)).1 (by decide),
   (claim_c1_amended_parser_failure docBadTok (optDef TidyXmlTags)).2.1 (by decide),
   (claim_c1_amended_parser_failure docBlockFoo (optDef TidyBlockTags)).2.2
     (by decide) (by decide)⟩

/-- The surfaced result of a non-fatal file parse is 1 exactly when the
option-error counter grew, else 0. -/
theorem ParseConfigFileEnc_result (d : TidyDocImpl) (file charenc : String)
    (chars : List Char) (enc : Nat) (henc : CharEncodingId charenc = some enc) :
    (ParseConfigFileEnc d file (some chars) charenc).2 =
      if d.optionErrors <
          (ParseConfigFileEnc d file (some chars) charenc).1.optionErrors
      then 1 else 0 := by
  simp only [ParseConfigFileEnc]
  rw [if_neg (by simp [henc])]

set_option maxHeartbeats 4000000 in
/-- Claim C9: an unknown property name with no fallback handler increments
the error count by one, changes no option value, and does not abort the
parse; the overall file-parse result is 1 exactly when the error counter
grew, 0 otherwise, with -1 reserved for an unopenable file or an
unresolvable encoding name. -/
theorem claim_c9_unknown_option_recovery :
    (∀ (d : TidyDocImpl) (file charenc : String),
      (ParseConfigFileEnc d file none charenc).2 = -1) ∧
    (∀ (d : TidyDocImpl) (file charenc : String) (content : Option (List Char)),
      CharEncodingId charenc = none →
      (ParseConfigFileEnc d file content charenc).2 = -1) ∧
    (∀ (d : TidyDocImpl) (file charenc : String) (chars : List Char) (enc : Nat),
      CharEncodingId charenc = some enc →
      (ParseConfigFileEnc d file (some chars) charenc).2 ≠ -1 ∧
      ((ParseConfigFileEnc d file (some chars) charenc).2 = 1 ↔
        d.optionErrors < (ParseConfigFileEnc d file (some chars) charenc).1.optionErrors) ∧
      ((ParseConfigFileEnc d file (some chars) charenc).2 = 0 ↔
        ¬ d.optionErrors < (ParseConfigFileEnc d file (some chars) charenc).1.optionErrors)) ∧
    (∀ (d : TidyDocImpl) (ch : Char),
      d.stream.c = some ch → ch ≠ '/' → ch ≠ '#' →
      (scanPropName d.stream).2.c = some ':' →
      lookupOption (scanPropName d.stream).1 = none →
      d.pOptCallback = none → d.pConfigCallback = none →
      (∀ i, (stepProperty d).value i = d.value i) ∧
      (stepProperty d).optionErrors = d.optionErrors + 1 ∧
      (stepProperty d).reports =
        d.reports ++ [.unknownOption (scanPropName d.stream).1]) ∧
    ((ParseConfigFileEnc initDoc "tidy.cfg" (some c9FileChars) "ascii").2 = 1 ∧
     (ParseConfigFileEnc initDoc "tidy.cfg" (some c9FileChars) "ascii").1.optionErrors = 1 ∧
     cfgGet (ParseConfigFileEnc initDoc "tidy.cfg" (some c9FileChars) "ascii").1 TidyTabSize = 5) := by
  refine ⟨?_, ?_, ?_, ?_, ?_⟩
  · intro d file charenc
    simp only [ParseConfigFileEnc]
    rw [if_pos (Or.inl trivial)]
  · intro d file charenc content henc
    simp only [ParseConfigFileEnc]
    rw [if_pos (Or.inr henc)]
  · intro d file charenc chars enc henc
    rw [ParseConfigFileEnc_result d file charenc chars enc henc]
    by_cases hlt : d.optionErrors <
        (ParseConfigFileEnc d file (some chars) charenc).1.optionErrors
    · rw [if_pos hlt]
      refine ⟨by decide, by simp [hlt], by simp [hlt]⟩
    · rw [if_neg hlt]
      refine ⟨by decide, by simp [hlt], by simp [hlt]⟩
  · intro d ch hc hslash hhash hcolon hlook hcb1 hcb2
    unfold stepProperty
    rw [hc]
    have hcond : ¬ (ch = '/' ∨ ch = '#') := by
      rintro (hh | hh)
      · exact hslash hh
      · exact hhash hh
    rcases hsp : scanPropName d.stream with ⟨nm, s1⟩
    rw [hsp] at hcolon hlook
    simp only at hcolon hlook
    simp only [hcond, hcolon, hlook, hcb1, hcb2, Option.isSome_none,
      Bool.false_eq_true, or_self, if_false, reduceIte, ReportUnknownOption]
    exact ⟨fun i => trivial, trivial, trivial⟩
  · refine ⟨by decide, by decide, by decide⟩

set_option maxHeartbeats 4000000 in
/-- Witness for C9 at concrete inputs: a bad encoding name is fatal, a good
parse result obeys the error-count rule, and the unknown `badopt` property
is skipped with one new error. -/
theorem claim_c9_witness :
    (ParseConfigFileEnc initDoc "tidy.cfg" (some c9FileChars) "bogus").2 = -1 ∧
    ((ParseConfigFileEnc initDoc "tidy.cfg" (some c9FileChars) "ascii").2 = 1 ↔
      initDoc.optionErrors <
        (ParseConfigFileEnc initDoc "tidy.cfg" (some c9FileChars) "ascii").1.optionErrors) ∧
    ((∀ i, (stepProperty docAtBadopt).value i = docAtBadopt.value i) ∧
     (stepProperty docAtBadopt).optionErrors = docAtBadopt.optionErrors + 1 ∧
     (stepProperty docAtBadopt).reports =
       docAtBadopt.reports ++ [.unknownOption (scanPropName docAtBadopt.stream).1]) :=
  ⟨claim_c9_unknown_option_recovery.2.1 initDoc "tidy.cfg" "bogus"
     (some c9FileChars) (by decide),
   (claim_c9_unknown_option_recovery.2.2.1 initDoc "tidy.cfg" "ascii"
     c9FileChars ASCII (by decide)).2.1,
   claim_c9_unknown_option_recovery.2.2.2.1 docAtBadopt 'b' (by decide)
     (by decide) (by decide) (by decide) (by decide) rfl rfl⟩

end TidyHtml5
